import Mathlib

/-!
# SOCKS5 proxy (`main.cpp`): a shallow embedding of the session code

Octets are natural numbers (a value read from the wire is below 256), a
16-bit port is a natural number, and a C string (`const char *`) is the list
of its characters before the terminating NUL, `none` standing for `nullptr`.
Socket operations are recorded as a trace of events; what the operating
system, the resolver and the peers answer is read from an environment.
-/

namespace Socks5

/-! ## Constants of `main.cpp` -/

def socks_version : Nat := 0x05

def socks_method_no_auth : Nat := 0
def socks_method_gssapi : Nat := 0x01
def socks_method_user_pwd : Nat := 0x02
def socks_method_unacceptable : Nat := 0xFF

def socks_cmd_connect : Nat := 0x01
def socks_cmd_bind : Nat := 0x02
def socks_cmd_udp_associate : Nat := 0x03

def socks_atyp_ipv4 : Nat := 0x01
def socks_atyp_domain : Nat := 0x03
def socks_atyp_ipv6 : Nat := 0x04

def socks_reply_success : Nat := 0x00
def socks_reply_general_failure : Nat := 0x01
def socks_reply_connection_not_allowed : Nat := 0x02
def socks_reply_network_unreachable : Nat := 0x03
def socks_reply_host_unreachable : Nat := 0x04
def socks_reply_connection_refused : Nat := 0x05
def socks_reply_ttl_expired : Nat := 0x06
def socks_reply_command_not_supported : Nat := 0x07
def socks_reply_address_type_not_supported : Nat := 0x08

def socks_header_ipv4_size : Nat := 10
def socks_header_ipv6_size : Nat := 22

/-! ## Addresses, endpoints, byte order -/

/-- An `asio::ip::address`: the four bytes of an IPv4 address or the sixteen
bytes of an IPv6 address, in network order. -/
inductive Address where
  | v4 (bytes : List Nat)
  | v6 (bytes : List Nat)
  deriving DecidableEq, Repr

def Address.is_v4 : Address → Bool
  | .v4 _ => true
  | .v6 _ => false

def Address.is_v6 : Address → Bool
  | .v4 _ => false
  | .v6 _ => true

def Address.to_bytes : Address → List Nat
  | .v4 b => b
  | .v6 b => b

/-- An `asio::ip::basic_endpoint`: an address and a port in host order. -/
structure Endpoint where
  address : Address
  port : Nat
  deriving DecidableEq, Repr

/-- The two bytes that `*(uint16_t *)p = htons(port)` stores at `p`. -/
def htons (port : Nat) : List Nat := [port / 256 % 256, port % 256]

/-- The value of `ntohs(*(uint16_t *)p)` when `p` points at the bytes `hi lo`. -/
def ntohs (hi lo : Nat) : Nat := (hi % 256) * 256 + lo % 256

/-- The effect of `std::copy(bs.begin(), bs.end(), buf.begin() + off)`. -/
def copy_at (buf : List Nat) (off : Nat) (bs : List Nat) : List Nat :=
  buf.take off ++ bs ++ buf.drop (off + bs.length)

/-- A `transfer_exactly(n)` read on a stream whose pending bytes are `input`:
the `n` bytes read and the bytes left, or `none` when the stream ends first
(the read throws and the session ends). -/
def read_exactly (n : Nat) (input : List Nat) : Option (List Nat × List Nat) :=
  if n ≤ input.length then some (input.take n, input.drop n) else none

/-! ## Error codes -/

/-- The values of the `asio::error` constants named in `convert_error_code`;
they come from the platform headers. -/
structure ErrorConstants where
  access_denied : Int
  network_unreachable : Int
  network_reset : Int
  network_down : Int
  host_not_found : Int
  host_not_found_try_again : Int
  connection_aborted : Int
  connection_reset : Int
  connection_refused : Int
  timed_out : Int
  address_family_not_supported : Int
  operation_aborted : Int
  bad_descriptor : Int

/-- The case labels of the `switch` in `convert_error_code`, in source order. -/
def ErrorConstants.labels (K : ErrorConstants) : List Int :=
  [K.access_denied, K.network_unreachable, K.network_reset, K.network_down,
   K.host_not_found, K.host_not_found_try_again, K.connection_aborted,
   K.connection_reset, K.connection_refused, K.timed_out,
   K.address_family_not_supported]

/-- The values on Linux (`errno.h`, `netdb.h`). -/
def linux_errors : ErrorConstants where
  access_denied := 13
  network_unreachable := 101
  network_reset := 102
  network_down := 100
  host_not_found := 1
  host_not_found_try_again := 2
  connection_aborted := 103
  connection_reset := 104
  connection_refused := 111
  timed_out := 110
  address_family_not_supported := 97
  operation_aborted := 125
  bad_descriptor := 9

/-- The function `convert_error_code(ec)`, on the integer `ec.value()`. -/
def convert_error_code (K : ErrorConstants) (ec : Int) : Nat :=
  if ec = K.access_denied then socks_reply_connection_not_allowed
  else if ec = K.network_unreachable then socks_reply_network_unreachable
  else if ec = K.network_reset then socks_reply_network_unreachable
  else if ec = K.network_down then socks_reply_network_unreachable
  else if ec = K.host_not_found then socks_reply_host_unreachable
  else if ec = K.host_not_found_try_again then socks_reply_host_unreachable
  else if ec = K.connection_aborted then socks_reply_connection_refused
  else if ec = K.connection_reset then socks_reply_connection_refused
  else if ec = K.connection_refused then socks_reply_connection_refused
  else if ec = K.timed_out then socks_reply_ttl_expired
  else if ec = K.address_family_not_supported then socks_reply_address_type_not_supported
  else socks_reply_general_failure

/-! ## The session: `socks5_access` -/

/-- What a session does to the outside world, in program order. -/
inductive Event where
  /-- Call of `asio::async_write(client_socket, ...)`: all of `bytes` is written. -/
  | client_write (bytes : List Nat)
  /-- Call of `client_socket.async_write_some(...)`, offered `bytes`. -/
  | client_write_some (bytes : List Nat)
  /-- Call of `tcp::resolver::async_resolve(hostname, to_string(port))`. -/
  | tcp_resolve (hostname : List Nat) (port : Nat)
  /-- Call of `remote_socket.async_connect(endpoint)`. -/
  | remote_connect (endpoint : Endpoint)
  /-- The assignment to the global `tcp_local_address`. -/
  | set_tcp_local_address (address : Address)
  /-- Call of `make_shared<tcp_session>(client_socket, remote_socket)->start()`; the
  argument is the endpoint `remote_socket` is connected to, if any. -/
  | start_tcp_session (connected : Option Endpoint)
  /-- Call of `acceptor.set_option(...)` on the BIND acceptor. -/
  | acceptor_set_option
  /-- Call of `make_shared<tcp_binding>(client_socket, acceptor)->start(reply)`. -/
  | start_tcp_binding (reply : List Nat)
  /-- Call of `udp::resolver::async_resolve(hostname, to_string(port))`. -/
  | udp_resolve (hostname : List Nat) (port : Nat)
  /-- Construction of `listen_udp_socket`, opened and bound to `endpoint`. -/
  | udp_listen (endpoint : Endpoint)
  /-- Call of `make_shared<udp_session>(client_socket, listen_udp_socket)->start()`. -/
  | start_udp_session (listener_port : Nat)
  /-- Call of `acceptor.cancel(ec)` in `tcp_binding::watchdog`. -/
  | acceptor_cancel
  /-- Call of `timer.cancel(ec)` at the end of `tcp_binding::handle_bind_request`. -/
  | timer_cancel
  deriving DecidableEq, Repr

/-- The answers of the outside world to one session. An error code is the
integer `ec.value()`, zero meaning success; `none` means the call throws. -/
structure Env where
  /-- Values of the `asio::error` constants. -/
  errors : ErrorConstants
  /-- The global `tcp_local_address` when the session runs. -/
  tcp_local_address : Option Address
  /-- Result of the TCP resolver: error code and endpoint list. -/
  tcp_resolve : List Nat → Nat → Int × List Endpoint
  /-- Error code of the `i`-th `async_connect` of `remote_socket`. -/
  tcp_connect : Nat → Endpoint → Int
  /-- Result of `remote_socket.local_endpoint()`, given the endpoint the socket is
  connected to (`none`: the socket was never opened). -/
  remote_local_endpoint : Option Endpoint → Option Endpoint
  /-- Whether `acceptor.set_option(...)` returns (it throws otherwise). -/
  acceptor_set_option : Bool
  /-- Result of `acceptor.local_endpoint()`. -/
  acceptor_local_endpoint : Option Endpoint
  /-- Result of `client_socket.local_endpoint()`. -/
  client_local_endpoint : Option Endpoint
  /-- Result of the UDP resolver: error code and endpoint list. -/
  udp_resolve : List Nat → Nat → Int × List Endpoint
  /-- Construction of `listen_udp_socket` on the given endpoint (`none`: it
  throws), then `local_endpoint(ec)`: the error code and the endpoint. -/
  udp_listen : Endpoint → Option (Int × Endpoint)

/-- The method loop of `socks5_access`: `method_supported` after scanning
`data[0 .. num_methods)`. -/
def method_supported (username password : Option (List Nat)) : List Nat → Option Nat
  | [] => none
  | m :: ms =>
    if m = socks_method_no_auth ∧ username = none ∧ password = none then some m
    else if m = socks_method_user_pwd ∧ username.isSome ∧ password.isSome then some m
    else method_supported username password ms

/-- The `for (auto &&endpoint : endpoints)` loop of the CONNECT case: the
connect attempts made, the final `ec`, and `tcp_endpoint`. `i` counts the
attempts already made and `ec` is the error code on entry. -/
def connect_loop (env : Env) : Nat → Int → List Endpoint → List Event × Int × Option Endpoint
  | _, ec, [] => ([], ec, none)
  | i, _, endpoint :: endpoints =>
    if env.tcp_connect i endpoint = 0 then
      ([Event.remote_connect endpoint], 0, some endpoint)
    else
      let r := connect_loop env (i + 1) (env.tcp_connect i endpoint) endpoints
      (Event.remote_connect endpoint :: r.1, r.2.1, r.2.2)

/-- The tail of the CONNECT case, from `if (ec || tcp_endpoint == nullptr)`.
`connected` is what `remote_socket` is connected to. -/
def connect_finish (env : Env) (reply : List Nat) (reply_size : Nat) (ec : Int)
    (tcp_endpoint connected : Option Endpoint) : List Event :=
  match tcp_endpoint with
  | none =>
    let reply := reply.set 1
      (if ec ≠ 0 then convert_error_code env.errors ec else socks_reply_network_unreachable)
    [Event.client_write_some (reply.take reply_size)]
  | some endpoint =>
    if ec ≠ 0 then
      [Event.client_write_some ((reply.set 1 (convert_error_code env.errors ec)).take reply_size)]
    else
      let widen : Bool := reply.getD 3 0 ≠ socks_atyp_ipv6 ∧ endpoint.address.is_v6
      let reply_size := if widen then socks_header_ipv6_size else reply_size
      let reply := if widen then reply.set 3 socks_atyp_ipv6 else reply
      match env.remote_local_endpoint connected with
      | none => []
      | some local_endpoint =>
        [Event.set_tcp_local_address local_endpoint.address,
         Event.client_write_some (reply.take reply_size),
         Event.start_tcp_session connected]

/-- The `case socks_cmd_connect` of `socks5_access`. -/
def socks5_access_connect (env : Env) (reply : List Nat) (address_type : Nat)
    (tcp_endpoint : Option Endpoint) (hostname : List Nat) (port : Nat) : List Event :=
  let reply := reply.set 1 socks_reply_success
  let reply_size :=
    if address_type = socks_atyp_ipv6 then socks_header_ipv6_size else socks_header_ipv4_size
  let reply :=
    if address_type = socks_atyp_ipv6 then reply.set 3 socks_atyp_ipv6
    else reply.set 3 socks_atyp_ipv4
  match tcp_endpoint with
  | none =>
    let r := env.tcp_resolve hostname port
    let ec := r.1
    let endpoints := r.2
    if endpoints.isEmpty ∨ ec ≠ 0 then
      let reply := if ec ≠ 0 then reply.set 1 (convert_error_code env.errors ec) else reply
      let reply :=
        if endpoints.isEmpty then reply.set 1 socks_reply_network_unreachable else reply
      [Event.tcp_resolve hostname port, Event.client_write_some (reply.take reply_size)]
    else
      let l := connect_loop env 0 ec endpoints
      Event.tcp_resolve hostname port ::
        (l.1 ++ connect_finish env reply reply_size l.2.1 l.2.2 l.2.2)
  | some endpoint => connect_finish env reply reply_size 0 (some endpoint) none

/-- The `case socks_cmd_bind` of `socks5_access`. -/
def socks5_access_bind (env : Env) (reply : List Nat) : List Event :=
  match env.tcp_local_address with
  | none =>
    let reply := ((reply.set 0 socks_version).set 1 socks_reply_command_not_supported).set 3
      socks_atyp_ipv4
    [Event.client_write (reply.take socks_header_ipv4_size)]
  | some address =>
    if env.acceptor_set_option then
      match env.acceptor_local_endpoint with
      | none => [Event.acceptor_set_option]
      | some acceptor_endpoint =>
        let listener_port := acceptor_endpoint.port
        let reply := reply.set 1 socks_reply_success
        if address.is_v6 then
          let reply := reply.set 3 socks_atyp_ipv6
          let reply := copy_at reply 4 address.to_bytes
          let reply := copy_at reply 20 (htons listener_port)
          [Event.acceptor_set_option, Event.client_write (reply.take socks_header_ipv6_size),
           Event.start_tcp_binding reply]
        else
          let reply := reply.set 3 socks_atyp_ipv4
          -- `*(uint32_t *)v4_bytes.data() = *(uint32_t *)(reply.data() + 4)` writes
          -- the local array `v4_bytes`, not `reply`.
          let reply := copy_at reply 8 (htons listener_port)
          [Event.acceptor_set_option, Event.client_write (reply.take socks_header_ipv4_size),
           Event.start_tcp_binding reply]
    else [Event.acceptor_set_option]

/-- The rest of `case socks_cmd_udp_associate` from the construction of
`listen_udp_socket`. -/
def udp_associate_listen (env : Env) (reply : List Nat) (reply_size : Nat)
    (local_address : Address) (initialise_endpoint : Endpoint) : List Event :=
  match env.udp_listen initialise_endpoint with
  | none => [Event.udp_listen initialise_endpoint]
  | some (ec, binding_endpoint) =>
    if ec ≠ 0 then
      [Event.udp_listen initialise_endpoint,
       Event.client_write_some ((reply.set 1 (convert_error_code env.errors ec)).take reply_size)]
    else
      let reply :=
        if local_address.is_v6 then
          copy_at (copy_at reply 4 local_address.to_bytes) 20 (htons binding_endpoint.port)
        else
          -- `*(uint32_t *)v4_bytes.data() = *(uint32_t *)(reply.data() + 4)` writes
          -- the local array `v4_bytes`, not `reply`.
          copy_at reply 8 (htons binding_endpoint.port)
      [Event.udp_listen initialise_endpoint,
       Event.client_write_some (reply.take reply_size),
       Event.start_udp_session binding_endpoint.port]

/-- The `case socks_cmd_udp_associate` of `socks5_access`. -/
def socks5_access_udp_associate (env : Env) (reply : List Nat)
    (tcp_endpoint : Option Endpoint) (hostname : List Nat) (port : Nat) : List Event :=
  match env.client_local_endpoint with
  | none => []
  | some client_endpoint =>
    let local_address := client_endpoint.address
    let reply_size :=
      if local_address.is_v6 then socks_header_ipv6_size else socks_header_ipv4_size
    let reply :=
      if local_address.is_v6 then reply.set 3 socks_atyp_ipv6 else reply.set 3 socks_atyp_ipv4
    let initialise_endpoint : Endpoint :=
      if local_address.is_v6 then ⟨Address.v6 (List.replicate 16 0), 0⟩
      else ⟨Address.v4 (List.replicate 4 0), 0⟩
    match tcp_endpoint with
    | none =>
      let r := env.udp_resolve hostname port
      let ec := r.1
      let endpoints := r.2
      if ec ≠ 0 ∨ endpoints.isEmpty then
        let reply :=
          if ec ≠ 0 then reply.set 1 (convert_error_code env.errors ec)
          else if endpoints.isEmpty then reply.set 1 socks_reply_network_unreachable
          else reply
        [Event.udp_resolve hostname port, Event.client_write_some (reply.take reply_size)]
      else
        Event.udp_resolve hostname port ::
          udp_associate_listen env reply reply_size local_address initialise_endpoint
    | some _ => udp_associate_listen env reply reply_size local_address initialise_endpoint

/-- The `switch (command)` of `socks5_access`. -/
def socks5_access_command (env : Env) (reply : List Nat) (command address_type : Nat)
    (tcp_endpoint : Option Endpoint) (hostname : List Nat) (port : Nat) : List Event :=
  if command = socks_cmd_connect then
    socks5_access_connect env reply address_type tcp_endpoint hostname port
  else if command = socks_cmd_bind then
    socks5_access_bind env reply
  else if command = socks_cmd_udp_associate then
    socks5_access_udp_associate env reply tcp_endpoint hostname port
  else
    let reply := ((reply.set 0 socks_version).set 1 socks_reply_command_not_supported).set 3
      socks_atyp_ipv4
    [Event.client_write (reply.take socks_header_ipv4_size)]

/-- The part of `socks5_access` from `// Read port number` on. -/
def socks5_access_port (env : Env) (reply : List Nat) (command address_type : Nat)
    (tcp_endpoint : Option Endpoint) (hostname : List Nat) (input : List Nat) : List Event :=
  match input with
  | hi :: lo :: _ =>
    let port := ntohs hi lo
    let tcp_endpoint := tcp_endpoint.map (fun e => { e with port := port })
    socks5_access_command env reply command address_type tcp_endpoint hostname port
  | _ => []

/-- The reply buffer of `socks5_access` on entry to `switch (address_type)`:
`std::array<uint8_t, 32> reply = {}` after `reply[0] = socks_version`. -/
def initial_reply : List Nat := (List.replicate 32 0).set 0 socks_version

/-- The part of `socks5_access` from `// 3. Request` on; `input` is what the
client sends from there. -/
def socks5_access_request (env : Env) (input : List Nat) : List Event :=
  match input with
  | ver :: command :: _ :: address_type :: input =>
    if ver ≠ socks_version then []
    else
      let reply := initial_reply
      if address_type = socks_atyp_ipv4 then
        match read_exactly 4 input with
        | none => []
        | some (address_bytes, input) =>
          socks5_access_port env reply command address_type
            (some ⟨Address.v4 address_bytes, 0⟩) [] input
      else if address_type = socks_atyp_domain then
        match input with
        | [] => []
        | domain_length :: input =>
          match read_exactly domain_length input with
          | none => []
          | some (hostname, input) =>
            socks5_access_port env reply command address_type none hostname input
      else if address_type = socks_atyp_ipv6 then
        match read_exactly 16 input with
        | none => []
        | some (address_bytes, input) =>
          socks5_access_port env reply command address_type
            (some ⟨Address.v6 address_bytes, 0⟩) [] input
      else
        let reply := (reply.set 1 socks_reply_address_type_not_supported).set 3 socks_atyp_ipv4
        [Event.client_write (reply.take socks_header_ipv4_size)]
  | _ => []

/-- The part of `socks5_access` under `// 2. Username / Password
Authentication`, entered when `chosen_method == socks_method_user_pwd`. -/
def socks5_access_auth (env : Env) (username password : Option (List Nat))
    (input : List Nat) : List Event :=
  match input with
  | ver :: username_length :: input =>
    if ver ≠ 1 then []
    else
      match read_exactly username_length input with
      | none => []
      | some (recv_username, input) =>
        match input with
        | [] => []
        | password_length :: input =>
          match read_exactly password_length input with
          | none => []
          | some (recv_password, input) =>
            if some recv_username = username ∧ some recv_password = password then
              Event.client_write [1, 0] :: socks5_access_request env input
            else [Event.client_write [1, 1]]
  | _ => []

/-- The coroutine `socks5_access(client_socket, username, password)`; `input`
is the byte stream the client sends before closing its side. The trace ends
when the coroutine returns or an exception reaches its `catch`. -/
def socks5_access (env : Env) (username password : Option (List Nat))
    (input : List Nat) : List Event :=
  match input with
  | ver :: num_methods :: input =>
    if ver ≠ socks_version then []
    else
      match read_exactly num_methods input with
      | none => []
      | some (methods, input) =>
        let supported := method_supported username password methods
        let chosen_method := supported.getD socks_method_unacceptable
        Event.client_write [socks_version, chosen_method] ::
          (match supported with
           | none => []
           | some _ =>
             if chosen_method = socks_method_user_pwd then
               socks5_access_auth env username password input
             else socks5_access_request env input)
  | _ => []

/-! ## BIND: `tcp_binding` -/

/-- The array `reply` that the error branch of `handle_bind_request` passes to
`client_socket.async_write_some`, after `reply[1] = convert_error_code(ec)`. -/
def handle_bind_request_error_reply (K : ErrorConstants) (reply : List Nat) (ec : Int) :
    List Nat :=
  reply.set 1 (convert_error_code K ec)

/-- The coroutine `tcp_binding::handle_bind_request(reply)`. The pending
`async_accept` completes with the error code `ec`; when `ec` is zero,
`remote_endpoint` is the result of `listener_socket.remote_endpoint()`
(`none`: it throws, and the `catch` of the coroutine prints the message). -/
def handle_bind_request (K : ErrorConstants) (reply : List Nat) (ec : Int)
    (remote_endpoint : Option Endpoint) : List Event :=
  let reply_size := 0
  if ec ≠ 0 then
    [Event.client_write_some ((handle_bind_request_error_reply K reply ec).take reply_size)]
  else
    match remote_endpoint with
    | none => [Event.timer_cancel]
    | some remote_endpoint =>
      let remote_address := remote_endpoint.address
      let remote_port := remote_endpoint.port
      if remote_address.is_v6 then
        let reply_size := socks_header_ipv6_size
        let reply := reply.set 3 socks_atyp_ipv6
        let reply := copy_at reply 4 remote_address.to_bytes
        let reply := copy_at reply 20 (htons remote_port)
        [Event.client_write_some (reply.take reply_size),
         Event.start_tcp_session (some remote_endpoint), Event.timer_cancel]
      else
        let reply_size := socks_header_ipv4_size
        let reply := reply.set 3 socks_atyp_ipv4
        let reply := copy_at reply 4 remote_address.to_bytes
        let reply := copy_at reply 8 (htons remote_port)
        [Event.client_write_some (reply.take reply_size),
         Event.start_tcp_session (some remote_endpoint), Event.timer_cancel]

/-- Which of the two coroutines of a `tcp_binding` completes its wait first. -/
inductive BindRace where
  /-- The 180-second timer of `watchdog` expires while `async_accept` is
  pending. -/
  | deadline
  /-- The accept completes before the deadline, with the error code `ec` and,
  on success, the peer's `remote_endpoint()`. -/
  | accept (ec : Int) (remote_endpoint : Option Endpoint)

/-- The two coroutines spawned by `tcp_binding::start(reply)`. When the timer
expires first, `watchdog` calls `acceptor.cancel` and the pending accept
completes with `operation_aborted`. A failed accept leaves the timer running,
so `watchdog` cancels the acceptor at the deadline. -/
def tcp_binding_start (K : ErrorConstants) (reply : List Nat) : BindRace → List Event
  | BindRace.deadline =>
    Event.acceptor_cancel :: handle_bind_request K reply K.operation_aborted none
  | BindRace.accept ec remote_endpoint =>
    if ec ≠ 0 then handle_bind_request K reply ec remote_endpoint ++ [Event.acceptor_cancel]
    else handle_bind_request K reply ec remote_endpoint

/-- The events of the task that an event of `socks5_access` spawns and that
writes replies to the client: the `tcp_binding` of a BIND. (The relay pumps
of `tcp_session` write relayed bytes, not replies.) -/
def spawned_replies (K : ErrorConstants) (race : BindRace) : Event → List Event
  | Event.start_tcp_binding reply => tcp_binding_start K reply race
  | _ => []

/-- An execution of `socks5_access` together with the `tcp_binding` it
spawns. -/
def socks5_access_execution (env : Env) (username password : Option (List Nat))
    (input : List Nat) (race : BindRace) : List Event :=
  socks5_access env username password input ++
    (socks5_access env username password input).flatMap (spawned_replies env.errors race)

/-! ## The TCP relay: `tcp_session` -/

/-- Completion of one `async_read_some`: an error (end of stream included)
or the bytes placed in the buffer. -/
inductive ReadSome where
  | error
  | bytes (data : List Nat)
  deriving DecidableEq, Repr

/-- The pump `tcp_session::reader`: the bytes that `remote_socket` accepted,
in order. `reads` are the completions of the reads on `local_socket`;
`write_some i offered` is the completion of the `i`-th `async_write_some`:
`none` for an error, `some k` when the socket took the first `k` bytes. -/
def tcp_session_reader (write_some : Nat → List Nat → Option Nat) :
    Nat → List ReadSome → List Nat
  | _, [] => []
  | _, ReadSome.error :: _ => []
  | i, ReadSome.bytes data :: reads =>
    if data.length = 0 then tcp_session_reader write_some i reads
    else
      match write_some i data with
      | none => []
      | some k => data.take k ++ tcp_session_reader write_some (i + 1) reads

/-- The pump `tcp_session::writer`: the bytes that `local_socket` accepted,
in order; `reads` are the completions of the reads on `remote_socket`. -/
def tcp_session_writer (write_some : Nat → List Nat → Option Nat) :
    Nat → List ReadSome → List Nat
  | _, [] => []
  | _, ReadSome.error :: _ => []
  | i, ReadSome.bytes data :: reads =>
    if data.length = 0 then tcp_session_writer write_some i reads
    else
      match write_some i data with
      | none => []
      | some k => data.take k ++ tcp_session_writer write_some (i + 1) reads

/-- The bytes a pump read before its first failed read. -/
def bytes_received : List ReadSome → List Nat
  | [] => []
  | ReadSome.error :: _ => []
  | ReadSome.bytes data :: reads => data ++ bytes_received reads

/-! ## The UDP relay: `udp_session` -/

/-- What the pumps of a `udp_session` do, in program order. -/
inductive UdpEvent where
  /-- Call of `udp::resolver::async_resolve(hostname, to_string(port))`. -/
  | resolve (hostname : List Nat) (port : Nat)
  /-- Call of `forwarder_socket.async_connect(endpoint)`. -/
  | forwarder_connect (endpoint : Endpoint)
  /-- Call of `forwarder_socket.async_send_to(payload, endpoint)`. -/
  | forwarder_send_to (payload : List Nat) (endpoint : Endpoint)
  /-- Call of `listener_socket.async_send_to(frame, endpoint)`. -/
  | listener_send_to (frame : List Nat) (endpoint : Endpoint)
  deriving DecidableEq, Repr

/-- The answers of the outside world to the pumps of a `udp_session`. -/
structure UdpEnv where
  /-- Result of the UDP resolver: error code and endpoint list. -/
  resolve : List Nat → Nat → Int × List Endpoint
  /-- Error code of the `i`-th `async_connect` of `forwarder_socket`. -/
  connect : Nat → Endpoint → Int

/-- A default-constructed `udp::endpoint`, the initial `client_udp_endpoint`. -/
def default_udp_endpoint : Endpoint := ⟨Address.v4 [0, 0, 0, 0], 0⟩

/-- The `for (auto &&endpoint : endpoints)` loop of `udp_session::reader`:
the connect attempts, the final `ec` and `remote_udp_endpoint`. -/
def forwarder_connect_loop (env : UdpEnv) :
    Nat → Int → List Endpoint → List UdpEvent × Int × Option Endpoint
  | _, ec, [] => ([], ec, none)
  | i, _, endpoint :: endpoints =>
    if env.connect i endpoint = 0 then
      ([UdpEvent.forwarder_connect endpoint], 0, some endpoint)
    else
      let r := forwarder_connect_loop env (i + 1) (env.connect i endpoint) endpoints
      (UdpEvent.forwarder_connect endpoint :: r.1, r.2.1, r.2.2)

/-- One turn of the loop of `udp_session::reader` on a datagram received on
`listener_socket` from `from_udp_endpoint`: the events and the new value of
`client_udp_endpoint`. The receive buffer holds 4096 bytes. -/
def udp_session_reader_step (env : UdpEnv) (client_udp_endpoint from_udp_endpoint : Endpoint)
    (datagram : List Nat) : List UdpEvent × Endpoint :=
  let data := datagram.take 4096
  let bytes_read := data.length
  if bytes_read ≤ 4 then ([], client_udp_endpoint)
  else if data.getD 2 0 ≠ 0 then ([], from_udp_endpoint)
  else if data.getD 3 0 = socks_atyp_ipv4 then
    if bytes_read ≤ socks_header_ipv4_size then ([], from_udp_endpoint)
    else
      let address := Address.v4 ((data.drop 4).take 4)
      let port := ntohs (data.getD 8 0) (data.getD 9 0)
      let client_data := data.drop 10
      ([UdpEvent.forwarder_send_to client_data ⟨address, port⟩], from_udp_endpoint)
  else if data.getD 3 0 = socks_atyp_ipv6 then
    if bytes_read ≤ socks_header_ipv6_size then ([], from_udp_endpoint)
    else
      let address := Address.v6 ((data.drop 4).take 16)
      let port := ntohs (data.getD 20 0) (data.getD 21 0)
      let client_data := data.drop 22
      ([UdpEvent.forwarder_send_to client_data ⟨address, port⟩], from_udp_endpoint)
  else if data.getD 3 0 = socks_atyp_domain then
    if bytes_read ≤ socks_header_ipv4_size then ([], from_udp_endpoint)
    else
      let domain_length := data.getD 4 0
      if bytes_read ≤ 4 + 1 + domain_length + 2 then ([], from_udp_endpoint)
      else
        let hostname := (data.drop 5).take domain_length
        let port := ntohs (data.getD (5 + domain_length) 0) (data.getD (5 + domain_length + 1) 0)
        let r := env.resolve hostname port
        if r.1 ≠ 0 ∨ r.2.isEmpty then ([UdpEvent.resolve hostname port], from_udp_endpoint)
        else
          let l := forwarder_connect_loop env 0 r.1 r.2
          if l.2.1 ≠ 0 then (UdpEvent.resolve hostname port :: l.1, from_udp_endpoint)
          else
            let client_data := data.drop (5 + domain_length + 2)
            match l.2.2 with
            | none => (UdpEvent.resolve hostname port :: l.1, from_udp_endpoint)
            | some remote_udp_endpoint =>
              (UdpEvent.resolve hostname port ::
                (l.1 ++ [UdpEvent.forwarder_send_to client_data remote_udp_endpoint]),
               from_udp_endpoint)
  else ([], from_udp_endpoint)

/-- The frame that one turn of the loop of `udp_session::writer` hands to
`listener_socket.async_send_to`: the first `header_size` bytes of
`socks5_header_raw` followed by the received bytes `data`. -/
def udp_session_writer_frame (remote_udp_endpoint : Endpoint) (data : List Nat) : List Nat :=
  let socks5_header_raw := List.replicate 32 0
  let port := remote_udp_endpoint.port
  match remote_udp_endpoint.address with
  | Address.v4 v4_bytes =>
    let socks5_header_raw := socks5_header_raw.set 3 socks_atyp_ipv4
    let socks5_header_raw := copy_at socks5_header_raw 4 v4_bytes
    let socks5_header_raw := copy_at socks5_header_raw 8 (htons port)
    socks5_header_raw.take socks_header_ipv4_size ++ data
  | Address.v6 v6_bytes =>
    let socks5_header_raw := socks5_header_raw.set 3 socks_atyp_ipv4
    let socks5_header_raw := copy_at socks5_header_raw 4 v6_bytes
    let socks5_header_raw := copy_at socks5_header_raw 20 (htons port)
    socks5_header_raw.take socks_header_ipv6_size ++ data

/-- One turn of the loop of `udp_session::writer` on a datagram received on
`forwarder_socket` from `remote_udp_endpoint`. The receive buffer holds 4096
bytes. -/
def udp_session_writer_step (client_udp_endpoint remote_udp_endpoint : Endpoint)
    (datagram : List Nat) : List UdpEvent :=
  [UdpEvent.listener_send_to
    (udp_session_writer_frame remote_udp_endpoint (datagram.take 4096)) client_udp_endpoint]

/-- A completion seen by one of the pumps of a `udp_session`. -/
inductive UdpInput where
  /-- The receive of `reader` on `listener_socket` yields a datagram. -/
  | listener_receive (from_udp_endpoint : Endpoint) (datagram : List Nat)
  /-- The receive of `reader` on `listener_socket` fails. -/
  | listener_error
  /-- The receive of `writer` on `forwarder_socket` yields a datagram. -/
  | forwarder_receive (remote_udp_endpoint : Endpoint) (datagram : List Nat)
  /-- The receive of `writer` on `forwarder_socket` fails. -/
  | forwarder_error

/-- The state of a `udp_session`: the member `client_udp_endpoint`, whether
`request_socket` is open, and which pumps are still in their loop. -/
structure UdpSession where
  client_udp_endpoint : Endpoint
  request_socket_open : Bool
  reader_running : Bool
  writer_running : Bool
  deriving DecidableEq, Repr

/-- The session after `udp_session::start()`: `client_udp_endpoint` is
default-constructed, both pumps wait in their first receive. -/
def udp_session_start : UdpSession :=
  ⟨default_udp_endpoint, true, true, true⟩

/-- One completion: the pump concerned runs the body of its loop once, then
tests `request_socket.is_open()`; a failed receive leaves the loop and calls
`stop()`, which closes `request_socket` and `listener_socket`. When it is
`writer` that stops, the close of `listener_socket` ends the pending receive
of `reader`, which leaves its loop too; `forwarder_socket` is not closed, so
after `reader` stops `writer` stays in its receive. A turn of `reader` assigns
`client_udp_endpoint` before its first suspension (resolve, connect, send), so
for the other pump the turn is one step; its events are listed together. -/
def udp_session_on (env : UdpEnv) (s : UdpSession) : UdpInput → List UdpEvent × UdpSession
  | UdpInput.listener_receive from_udp_endpoint datagram =>
    if s.reader_running then
      let r := udp_session_reader_step env s.client_udp_endpoint from_udp_endpoint datagram
      (r.1, { s with client_udp_endpoint := r.2, reader_running := s.request_socket_open })
    else ([], s)
  | UdpInput.listener_error =>
    if s.reader_running then
      ([], { s with reader_running := false, request_socket_open := false })
    else ([], s)
  | UdpInput.forwarder_receive remote_udp_endpoint datagram =>
    if s.writer_running then
      (udp_session_writer_step s.client_udp_endpoint remote_udp_endpoint datagram,
       { s with writer_running := s.request_socket_open })
    else ([], s)
  | UdpInput.forwarder_error =>
    if s.writer_running then
      ([], { s with writer_running := false, reader_running := false,
                    request_socket_open := false })
    else ([], s)

/-- A run of a `udp_session` over a sequence of completions: all events, in
order, and the state reached. -/
def udp_session_run (env : UdpEnv) : UdpSession → List UdpInput → List UdpEvent × UdpSession
  | s, [] => ([], s)
  | s, input :: inputs =>
    let r := udp_session_on env s input
    let rest := udp_session_run env r.2 inputs
    (r.1 ++ rest.1, rest.2)

/-- The datagrams that leave `listener_socket`: the calls of
`listener_socket.async_send_to` that the operating system accepts. `refused`
tells for which destinations it refuses a datagram (`sendto` fails, the call
completes with an error code, and the pumps ignore it). -/
def listener_transmitted (refused : Endpoint → Bool) : List UdpEvent → List (List Nat × Endpoint)
  | [] => []
  | UdpEvent.listener_send_to frame endpoint :: events =>
    if refused endpoint then listener_transmitted refused events
    else (frame, endpoint) :: listener_transmitted refused events
  | _ :: events => listener_transmitted refused events

/-! ## The listeners -/

/-- The default argument `port = 1080` of both listeners. -/
def default_port : Nat := 1080

/-- Completion of one `acceptor.async_accept()` of a listener: it throws, or
it yields a client socket, given by the world the session will see and the
bytes the client will send. -/
inductive Accepted where
  | error
  | client (env : Env) (input : List Nat)

/-- What a listener coroutine does. -/
inductive ListenerEvent where
  /-- Construction of the `tcp_acceptor` of the listener, on a family and a
  port. -/
  | acceptor (v6 : Bool) (port : Nat)
  /-- Call of `co_spawn(executor, socks5_access(socket, username, password))`,
  with the trace of that session. -/
  | session (username password : Option (List Nat)) (trace : List Event)
  deriving DecidableEq, Repr

/-- The world of the listeners: whether an acceptor can be created on a port,
per family, and the completions of the accepts on each. -/
structure ListenEnv where
  acceptor_v4 : Nat → Bool
  acceptor_v6 : Nat → Bool
  accepts_v4 : List Accepted
  accepts_v6 : List Accepted

/-- The `while (true)` loop of a listener: the sessions spawned, and whether
the loop was left by an exception. -/
def accept_loop (username password : Option (List Nat)) :
    List Accepted → List ListenerEvent × Bool
  | [] => ([], false)
  | Accepted.error :: _ => ([], true)
  | Accepted.client env input :: accepts =>
    let r := accept_loop username password accepts
    (ListenerEvent.session username password (socks5_access env username password input) :: r.1,
     r.2)

/-- The coroutine `listener_ipv4(username, password, port)`. -/
def listener_ipv4 (w : ListenEnv) (username password : Option (List Nat)) (port : Nat) :
    List ListenerEvent :=
  ListenerEvent.acceptor false port ::
    (if w.acceptor_v4 port then (accept_loop username password w.accepts_v4).1 else [])

/-- The coroutine `listener_ipv6(username, password, port)`; `linux_system` is
the compile-time constant of that name. The `catch` spawns
`listener_ipv4(nullptr, nullptr)`, whose port is the default argument. -/
def listener_ipv6 (linux_system : Bool) (w : ListenEnv)
    (username password : Option (List Nat)) (port : Nat) : List ListenerEvent :=
  let r := if w.acceptor_v6 port then accept_loop username password w.accepts_v6 else ([], true)
  ListenerEvent.acceptor true port ::
    (r.1 ++ (if r.2 ∧ linux_system then listener_ipv4 w none none default_port else []))

/-! ## Sample environments and spec-side definitions -/

/-- A Linux host: the resolver knows no name, every connect succeeds from
192.168.1.5:54321, a socket that was never opened has no local endpoint
(`local_endpoint()` throws `bad_descriptor`), and the BIND acceptor, which
is never opened, rejects `set_option`. -/
def sample_env : Env where
  errors := linux_errors
  tcp_local_address := none
  tcp_resolve := fun _ _ => (linux_errors.host_not_found, [])
  tcp_connect := fun _ _ => 0
  remote_local_endpoint := fun connected =>
    connected.map (fun _ => ⟨Address.v4 [192, 168, 1, 5], 54321⟩)
  acceptor_set_option := false
  acceptor_local_endpoint := none
  client_local_endpoint := some ⟨Address.v4 [192, 168, 1, 5], 1080⟩
  udp_resolve := fun _ _ => (linux_errors.host_not_found, [])
  udp_listen := fun _ => some (0, ⟨Address.v4 [0, 0, 0, 0], 40000⟩)

/-- The spec's Credentials (Absent, or Present with a username and a
password) as the two pointer arguments of `socks5_access`. -/
def Credentials := Option (List Nat × List Nat)

def Credentials.username (c : Credentials) : Option (List Nat) := Option.map Prod.fst c

def Credentials.password (c : Credentials) : Option (List Nat) := Option.map Prod.snd c

/-- The spec's policy: no-auth can be honored exactly when no credentials are
configured, user/pwd exactly when credentials are configured. -/
def honorable (c : Credentials) (m : Nat) : Bool :=
  (m == 0x00 && c.isNone) || (m == 0x02 && c.isSome)

/-- The host of `sample_env` with a resolver that answers every name with the
single endpoint 93.184.216.34:80. -/
def resolving_env : Env :=
  { sample_env with
    tcp_resolve := fun _ _ => (0, [⟨Address.v4 [93, 184, 216, 34], 80⟩]) }

/-- The error codes that the spec's table (and C7) names: every case label
of `convert_error_code` but `address_family_not_supported`. -/
def ErrorConstants.named_in_table (K : ErrorConstants) : List Int :=
  [K.access_denied, K.network_unreachable, K.network_reset, K.network_down,
   K.host_not_found, K.host_not_found_try_again, K.connection_refused,
   K.connection_reset, K.connection_aborted, K.timed_out]

/-- The spec's sizes of the address field of a request: 4 bytes for ATYP 0x01,
a length byte N followed by N bytes for ATYP 0x03, 16 bytes for ATYP 0x04. -/
def address_field (atyp : Nat) (addr : List Nat) : Bool :=
  (atyp == 0x01 && addr.length == 4) ||
  (atyp == 0x03 && (match addr with
    | [] => false
    | n :: name => name.length == n)) ||
  (atyp == 0x04 && addr.length == 16)

/-- A resolver that knows no name and a forwarder socket whose connects
succeed. -/
def sample_udp_env : UdpEnv where
  resolve := fun _ _ => (linux_errors.host_not_found, [])
  connect := fun _ _ => 0

/-- The BND.ADDR and BND.PORT bytes of a reply (offsets 4 and up) are zero. -/
def bnd_zero (reply : List Nat) : Prop := ∀ i, 4 ≤ i → reply.getD i 0 = 0

/-- The host of `sample_env` after a CONNECT left 192.168.1.5 in the global
`tcp_local_address`. The BIND acceptor is constructed without being opened,
so `set_option` on it throws, as in `sample_env`. -/
def after_connect_env : Env :=
  { sample_env with tcp_local_address := some (Address.v4 [192, 168, 1, 5]) }

/-- An operating system that refuses a datagram for port 0 (`sendto` to
0.0.0.0:0 fails with `EINVAL` on Linux). -/
def refuses_port_zero (endpoint : Endpoint) : Bool := endpoint.port == 0

/-- A world in which no IPv6 acceptor can be created, every IPv4 acceptor can,
and one client connects over IPv4 and sends `05 01 00`. -/
def fallback_world : ListenEnv where
  acceptor_v4 := fun _ => true
  acceptor_v6 := fun _ => false
  accepts_v4 := [Accepted.client sample_env [0x05, 0x01, 0x00]]
  accepts_v6 := []

/-- Whether the outbound pump has been handed a client datagram from which it
records the client UDP endpoint (one of more than 4 bytes). -/
def client_datagram_seen : List UdpInput → Bool
  | [] => false
  | UdpInput.listener_receive _ datagram :: inputs =>
    decide (4 < datagram.length) || client_datagram_seen inputs
  | _ :: inputs => client_datagram_seen inputs

/-- The spec's conditions under which a client datagram is dropped: FRAG is
non-zero, or the datagram is shorter than the minimum header of its ATYP (10
bytes for IPv4, 22 for IPv6, 4+1+N+2 for a domain of length N), or its ATYP
is none of 0x01, 0x03, 0x04. -/
def dropped_frame (datagram : List Nat) : Bool :=
  decide (datagram.getD 2 0 ≠ 0) ||
  (datagram.getD 3 0 == 0x01 && decide (datagram.length < 10)) ||
  (datagram.getD 3 0 == 0x04 && decide (datagram.length < 22)) ||
  (datagram.getD 3 0 == 0x03 && decide (datagram.length < 4 + 1 + datagram.getD 4 0 + 2)) ||
  (datagram.getD 3 0 != 0x01 && datagram.getD 3 0 != 0x03 && datagram.getD 3 0 != 0x04)

/-- A write to the client that is a request reply (at least VER, REP, RSV,
ATYP) whose REP byte is 0x00. The method and auth replies have 2 bytes. -/
def success_reply : Event → Bool
  | Event.client_write bytes => decide (4 ≤ bytes.length) && bytes.getD 1 1 == 0x00
  | Event.client_write_some bytes => decide (4 ≤ bytes.length) && bytes.getD 1 1 == 0x00
  | _ => false

/-- A write to the client. -/
def client_written : Event → Bool
  | Event.client_write _ => true
  | Event.client_write_some _ => true
  | _ => false

/-- A write to the client of at least 4 bytes: a request reply. -/
def client_reply : Event → Bool
  | Event.client_write bytes => decide (4 ≤ bytes.length)
  | Event.client_write_some bytes => decide (4 ≤ bytes.length)
  | _ => false

/-- The start of a `tcp_binding`. -/
def starts_binding : Event → Bool
  | Event.start_tcp_binding _ => true
  | _ => false

/-! ## Method negotiation -/

theorem read_exactly_append (xs rest : List Nat) :
    read_exactly xs.length (xs ++ rest) = some (xs, rest) := by
  simp [read_exactly]

theorem method_supported_eq_find (c : Credentials) (methods : List Nat) :
    method_supported c.username c.password methods = methods.find? (honorable c) := by
  induction methods with
  | nil => rfl
  | cons m ms ih =>
    cases c with
    | none =>
      simp only [Credentials.username, Credentials.password, Option.map] at ih ⊢
      by_cases h : m = 0
      · simp [method_supported, honorable, socks_method_no_auth, h]
      · simp [method_supported, honorable, socks_method_no_auth, socks_method_user_pwd, h, ih]
    | some up =>
      simp only [Credentials.username, Credentials.password, Option.map] at ih ⊢
      by_cases h : m = 2
      · simp [method_supported, honorable, socks_method_no_auth, socks_method_user_pwd, h]
      · simp [method_supported, honorable, socks_method_no_auth, socks_method_user_pwd, h, ih]

/-- The negotiation of `socks5_access` on a method message `05 NMETHODS
METHODS`: the 2-byte reply, then the phase the chosen method leads to. -/
theorem socks5_access_negotiation (env : Env) (username password : Option (List Nat))
    (methods rest : List Nat) :
    socks5_access env username password (0x05 :: methods.length :: (methods ++ rest)) =
      Event.client_write [0x05, (method_supported username password methods).getD 0xFF] ::
        (match method_supported username password methods with
         | none => []
         | some m =>
           if m = 0x02 then socks5_access_auth env username password rest
           else socks5_access_request env rest) := by
  simp only [socks5_access, socks_version, socks_method_unacceptable, socks_method_user_pwd,
    read_exactly_append]
  cases h : method_supported username password methods <;> simp

/-- C1. For every METHODS list and every credentials configuration (absent,
or present), the session's first action is the 2-byte reply `05 METHOD` where
METHOD is the first element of the list, in client order, that the server can
honor, and `FF` when there is none; METHOD is never `00` when credentials are
configured and never `02` when they are not. -/
theorem method_selection_first_honorable (env : Env) (c : Credentials)
    (methods rest : List Nat) :
    (∃ tail,
      socks5_access env c.username c.password (0x05 :: methods.length :: (methods ++ rest)) =
        Event.client_write [0x05, (methods.find? (honorable c)).getD 0xFF] :: tail) ∧
    (methods.find? (honorable c)).getD 0xFF ≠ (if c.isSome then 0x00 else 0x02) := by
  constructor
  · rw [socks5_access_negotiation, method_supported_eq_find]
    exact ⟨_, rfl⟩
  · cases hf : methods.find? (honorable c) with
    | none => cases c <;> simp
    | some m =>
      have hm := List.find?_some hf
      cases c <;> simp_all [honorable]

/-- Scenario 2 of the spec, `05 01 01` (GSSAPI only), gives `05 ff`; with
credentials configured, `05 02 00 02` gives `05 02`, and without, `05 02 02
00` gives `05 00`. -/
theorem method_selection_scenarios :
    socks5_access sample_env none none [0x05, 0x01, 0x01] =
      [Event.client_write [0x05, 0xFF]] ∧
    socks5_access sample_env (some [0x75]) (some [0x70]) [0x05, 0x02, 0x00, 0x02] =
      [Event.client_write [0x05, 0x02]] ∧
    socks5_access sample_env none none [0x05, 0x02, 0x02, 0x00] =
      [Event.client_write [0x05, 0x00]] := by
  decide

/-! ## Username/password sub-negotiation -/

theorem method_supported_present (u p : List Nat) (methods : List Nat) (h : 0x02 ∈ methods) :
    method_supported (some u) (some p) methods = some 0x02 := by
  induction methods with
  | nil => simp at h
  | cons m ms ih =>
    by_cases hm : m = 2
    · simp [method_supported, socks_method_user_pwd, hm]
    · have hms : 2 ∈ ms := by
        rcases List.mem_cons.mp h with h1 | h1
        · exact absurd h1.symm hm
        · exact h1
      simp [method_supported, socks_method_user_pwd, hm, ih hms]

/-- The authentication phase on a request `01 ULEN UNAME PLEN PASSWD`. -/
theorem socks5_access_auth_trace (env : Env) (username password : Option (List Nat))
    (uname passwd rest : List Nat) :
    socks5_access_auth env username password
        (0x01 :: uname.length :: (uname ++ passwd.length :: (passwd ++ rest))) =
      if some uname = username ∧ some passwd = password then
        Event.client_write [0x01, 0x00] :: socks5_access_request env rest
      else [Event.client_write [0x01, 0x01]] := by
  simp only [socks5_access_auth, read_exactly_append]
  simp

/-- A whole session with credentials configured, a method list offering
user/pwd and an auth request `01 ULEN UNAME PLEN PASSWD`. -/
theorem socks5_access_user_pwd (env : Env) (u p methods uname passwd rest : List Nat)
    (h : 0x02 ∈ methods) :
    socks5_access env (some u) (some p)
        (0x05 :: methods.length ::
          (methods ++ 0x01 :: uname.length :: (uname ++ passwd.length :: (passwd ++ rest)))) =
      Event.client_write [0x05, 0x02] ::
        (if uname = u ∧ passwd = p then
          Event.client_write [0x01, 0x00] :: socks5_access_request env rest
        else [Event.client_write [0x01, 0x01]]) := by
  rw [socks5_access_negotiation, method_supported_present u p methods h,
    socks5_access_auth_trace]
  simp

/-- C2. With credentials (u, p) configured and user/pwd negotiated, on every
well-formed auth request `01 ULEN UNAME PLEN PASSWD` the server replies
`01 00` and goes on to the request phase when UNAME = u and PASSWD = p as
byte strings, and otherwise replies `01 01` and ends the session, whatever
the client sent after the auth request. -/
theorem auth_success_iff_credentials_equal (env : Env)
    (u p methods uname passwd rest : List Nat) (h : 0x02 ∈ methods) :
    socks5_access env (some u) (some p)
        (0x05 :: methods.length ::
          (methods ++ 0x01 :: uname.length :: (uname ++ passwd.length :: (passwd ++ rest)))) =
      Event.client_write [0x05, 0x02] ::
        (if uname = u ∧ passwd = p then
          Event.client_write [0x01, 0x00] :: socks5_access_request env rest
        else [Event.client_write [0x01, 0x01]]) :=
  socks5_access_user_pwd env u p methods uname passwd rest h

/-- Scenario 3 of the spec: creds ("u", "p"), `05 01 02` then `01 01 75 01 70`
gives `05 02` then `01 00`. -/
theorem auth_success_iff_credentials_equal_witness :
    0x02 ∈ [0x02] ∧
    socks5_access sample_env (some [0x75]) (some [0x70])
        [0x05, 0x01, 0x02, 0x01, 0x01, 0x75, 0x01, 0x70] =
      [Event.client_write [0x05, 0x02], Event.client_write [0x01, 0x00]] :=
  ⟨by decide,
   auth_success_iff_credentials_equal sample_env [0x75] [0x70] [0x02] [0x75] [0x70] []
     (by decide)⟩

/-- Scenario 4 of the spec: creds ("u", "p"), `05 01 02` then `01 01 78 01 79`
gives `05 02` then `01 01`, and the request that follows is not read. -/
theorem auth_failure_scenario :
    socks5_access sample_env (some [0x75]) (some [0x70])
        [0x05, 0x01, 0x02, 0x01, 0x01, 0x78, 0x01, 0x79, 0x05, 0x01, 0x00, 0x09] =
      [Event.client_write [0x05, 0x02], Event.client_write [0x01, 0x01]] := by
  decide

/-- C3, as stated, fails: a server started with an empty username and an
empty password (`proxy "" ""`) accepts the auth request `01 00 00` with
STATUS=0 and reads the request that follows. -/
theorem zero_length_auth_accepted :
    socks5_access sample_env (some []) (some [])
        [0x05, 0x01, 0x02, 0x01, 0x00, 0x00, 0x05, 0x01, 0x00, 0x09] =
      [Event.client_write [0x05, 0x02], Event.client_write [0x01, 0x00],
       Event.client_write [0x05, 0x08, 0x00, 0x01, 0, 0, 0, 0, 0, 0]] := by
  decide

/-- C3, amended. An auth request with ULEN = 0 against a non-empty configured
username, or with PLEN = 0 against a non-empty configured password, is
rejected: the server replies `01 01` and ends the session without reading a
request. -/
theorem zero_length_auth_rejected (env : Env) (u p methods uname passwd rest : List Nat)
    (h : 0x02 ∈ methods)
    (hz : (uname.length = 0 ∧ u ≠ []) ∨ (passwd.length = 0 ∧ p ≠ [])) :
    socks5_access env (some u) (some p)
        (0x05 :: methods.length ::
          (methods ++ 0x01 :: uname.length :: (uname ++ passwd.length :: (passwd ++ rest)))) =
      [Event.client_write [0x05, 0x02], Event.client_write [0x01, 0x01]] := by
  rw [socks5_access_user_pwd env u p methods uname passwd rest h]
  have hne : ¬ (uname = u ∧ passwd = p) := by
    rintro ⟨h1, h2⟩
    rcases hz with ⟨hl, hu⟩ | ⟨hl, hp⟩
    · exact hu (by rw [← h1]; exact List.length_eq_zero.mp hl)
    · exact hp (by rw [← h2]; exact List.length_eq_zero.mp hl)
  simp [hne]

/-- Creds ("u", "p"), `05 01 02` then `01 00 00` (ULEN = 0 and PLEN = 0) gives
`05 02` then `01 01`, and the request that follows is not read. -/
theorem zero_length_auth_rejected_witness :
    0x02 ∈ [0x02] ∧
    (([] : List Nat).length = 0 ∧ [0x75] ≠ ([] : List Nat) ∨
      ([] : List Nat).length = 0 ∧ [0x70] ≠ ([] : List Nat)) ∧
    socks5_access sample_env (some [0x75]) (some [0x70])
        [0x05, 0x01, 0x02, 0x01, 0x00, 0x00, 0x05, 0x01, 0x00, 0x01] =
      [Event.client_write [0x05, 0x02], Event.client_write [0x01, 0x01]] :=
  ⟨by decide, by decide,
   zero_length_auth_rejected sample_env [0x75] [0x70] [0x02] [] [] [0x05, 0x01, 0x00, 0x01]
     (by decide) (by decide)⟩

/-! ## CONNECT -/

/-- No event of the CONNECT case on an address literal is a connect attempt:
`async_connect` is only called inside `if (tcp_endpoint == nullptr)`. -/
theorem connect_literal_no_connect_attempt (env : Env) (reply : List Nat) (address_type : Nat)
    (endpoint : Endpoint) (hostname : List Nat) (port : Nat) (e : Endpoint) :
    Event.remote_connect e ∉
      socks5_access_connect env reply address_type (some endpoint) hostname port := by
  simp only [socks5_access_connect, connect_finish]
  split
  · simp
  · cases env.remote_local_endpoint none <;> simp

theorem bnd_zero_set (reply : List Nat) (j x : Nat) (hj : j < 4) (h : bnd_zero reply) :
    bnd_zero (reply.set j x) := by
  intro i hi
  have hne : j ≠ i := by omega
  have := h i hi
  simp only [List.getD_eq_getElem?_getD] at this ⊢
  rw [List.getElem?_set_ne hne]
  exact this

theorem bnd_zero_take (reply : List Nat) (n : Nat) (h : bnd_zero reply) :
    bnd_zero (reply.take n) := by
  intro i hi
  have := h i hi
  simp only [List.getD_eq_getElem?_getD] at this ⊢
  rw [List.getElem?_take]
  split
  · exact this
  · rfl

theorem bnd_zero_initial_reply : bnd_zero initial_reply := by
  intro i hi
  simp only [initial_reply, List.getD_eq_getElem?_getD]
  rw [List.getElem?_set_ne (by omega), List.getElem?_replicate]
  split <;> rfl

theorem connect_finish_bnd_zero (env : Env) (reply : List Nat) (reply_size : Nat) (ec : Int)
    (tcp_endpoint connected : Option Endpoint) (bytes : List Nat) (hr : bnd_zero reply)
    (h : Event.client_write_some bytes ∈
      connect_finish env reply reply_size ec tcp_endpoint connected) :
    bnd_zero bytes := by
  unfold connect_finish at h
  cases tcp_endpoint with
  | none =>
    simp only [List.mem_singleton, Event.client_write_some.injEq] at h
    rw [h]
    exact bnd_zero_take _ _ (bnd_zero_set _ _ _ (by omega) hr)
  | some endpoint =>
    simp only at h
    split at h
    · simp only [List.mem_singleton, Event.client_write_some.injEq] at h
      rw [h]
      exact bnd_zero_take _ _ (bnd_zero_set _ _ _ (by omega) hr)
    · cases hl : env.remote_local_endpoint connected with
      | none => simp [hl] at h
      | some local_endpoint =>
        simp only [hl, List.mem_cons, Event.client_write_some.injEq, List.mem_singleton,
          reduceCtorEq, false_or, or_false, List.not_mem_nil] at h
        rw [h]
        apply bnd_zero_take
        split
        · exact bnd_zero_set _ _ _ (by omega) hr
        · exact hr

theorem connect_loop_events (env : Env) (i : Nat) (ec : Int) (endpoints : List Endpoint)
    (bytes : List Nat) :
    Event.client_write_some bytes ∉ (connect_loop env i ec endpoints).1 := by
  induction endpoints generalizing i ec with
  | nil => simp [connect_loop]
  | cons e es ih =>
    unfold connect_loop
    split
    · simp
    · simp only [List.mem_cons, reduceCtorEq, false_or]
      exact ih _ _

/-- Every reply that the CONNECT case writes, the success reply included,
has BND.ADDR and BND.PORT all zero: no statement of the case stores into
`reply` beyond offset 3. -/
theorem connect_reply_bnd_zero (env : Env) (address_type : Nat)
    (tcp_endpoint : Option Endpoint) (hostname : List Nat) (port : Nat) (bytes : List Nat)
    (h : Event.client_write_some bytes ∈
      socks5_access_connect env initial_reply address_type tcp_endpoint hostname port) :
    bnd_zero bytes := by
  have h1 : bnd_zero (initial_reply.set 1 socks_reply_success) :=
    bnd_zero_set _ _ _ (by omega) bnd_zero_initial_reply
  have h3 : bnd_zero (if address_type = socks_atyp_ipv6
      then (initial_reply.set 1 socks_reply_success).set 3 socks_atyp_ipv6
      else (initial_reply.set 1 socks_reply_success).set 3 socks_atyp_ipv4) := by
    split <;> exact bnd_zero_set _ _ _ (by omega) h1
  unfold socks5_access_connect at h
  cases tcp_endpoint with
  | some endpoint => exact connect_finish_bnd_zero _ _ _ _ _ _ _ h3 h
  | none =>
    simp only at h
    split at h
    · simp only [List.mem_cons, reduceCtorEq, Event.client_write_some.injEq,
        List.mem_singleton, false_or, List.not_mem_nil, or_false] at h
      rw [h]
      apply bnd_zero_take
      split
      · exact bnd_zero_set _ _ _ (by omega) (by split <;> first
          | exact bnd_zero_set _ _ _ (by omega) h3
          | exact h3)
      · split
        · exact bnd_zero_set _ _ _ (by omega) h3
        · exact h3
    · simp only [List.mem_cons, reduceCtorEq, false_or, List.mem_append] at h
      rcases h with h | h
      · exact absurd h (connect_loop_events _ _ _ _ _)
      · exact connect_finish_bnd_zero _ _ _ _ _ _ _ h3 h

/-- C4, at the failing input. Scenario 1 of the spec, `05 01 00` then
`05 01 00 01 7f 00 00 01 00 09` (CONNECT 127.0.0.1:9), and its IPv6 analogue
(CONNECT [::1]:9), on a host where every connect would succeed: after the
method reply the session makes no connect attempt and writes no reply. -/
theorem connect_literal_makes_no_attempt :
    socks5_access sample_env none none
        [0x05, 0x01, 0x00, 0x05, 0x01, 0x00, 0x01, 0x7f, 0x00, 0x00, 0x01, 0x00, 0x09] =
      [Event.client_write [0x05, 0x00]] ∧
    socks5_access sample_env none none
        [0x05, 0x01, 0x00, 0x05, 0x01, 0x00, 0x04,
         0, 0, 0, 0, 0, 0, 0, 0, 0, 0, 0, 0, 0, 0, 0, 1, 0x00, 0x09] =
      [Event.client_write [0x05, 0x00]] := by
  decide

/-- C5, at the failing input. CONNECT to the domain "a.io", port 80, which
resolves to 93.184.216.34:80 and connects from the local endpoint
192.168.1.5:54321: the success reply carries BND.ADDR 0.0.0.0 and BND.PORT 0,
not `c0 a8 01 05` and `d4 31`. -/
theorem connect_success_reply_bnd_is_zero :
    resolving_env.remote_local_endpoint (some ⟨Address.v4 [93, 184, 216, 34], 80⟩) =
      some ⟨Address.v4 [0xc0, 0xa8, 0x01, 0x05], 0xd431⟩ ∧
    socks5_access resolving_env none none
        [0x05, 0x01, 0x00, 0x05, 0x01, 0x00, 0x03, 0x04, 0x61, 0x2e, 0x69, 0x6f, 0x00, 0x50] =
      [Event.client_write [0x05, 0x00],
       Event.tcp_resolve [0x61, 0x2e, 0x69, 0x6f] 80,
       Event.remote_connect ⟨Address.v4 [93, 184, 216, 34], 80⟩,
       Event.set_tcp_local_address (Address.v4 [0xc0, 0xa8, 0x01, 0x05]),
       Event.client_write_some [0x05, 0x00, 0x00, 0x01, 0, 0, 0, 0, 0, 0],
       Event.start_tcp_session (some ⟨Address.v4 [93, 184, 216, 34], 80⟩)] := by
  decide

/-- C6, at the failing input. Scenario 5 of the spec, CONNECT to
"nope.invalid", port 80, with a resolver that fails with host-not-found and
returns no endpoint: the reply is `05 03 00 01 00 00 00 00 00 00`, REP =
NetworkUnreachable, not `05 04 ...`. -/
theorem connect_host_not_found_replies_network_unreachable :
    sample_env.tcp_resolve
        [0x6e, 0x6f, 0x70, 0x65, 0x2e, 0x69, 0x6e, 0x76, 0x61, 0x6c, 0x69, 0x64] 80 =
      (linux_errors.host_not_found, []) ∧
    socks5_access sample_env none none
        [0x05, 0x01, 0x00, 0x05, 0x01, 0x00, 0x03, 0x0c,
         0x6e, 0x6f, 0x70, 0x65, 0x2e, 0x69, 0x6e, 0x76, 0x61, 0x6c, 0x69, 0x64, 0x00, 0x50] =
      [Event.client_write [0x05, 0x00],
       Event.tcp_resolve
         [0x6e, 0x6f, 0x70, 0x65, 0x2e, 0x69, 0x6e, 0x76, 0x61, 0x6c, 0x69, 0x64] 80,
       Event.client_write_some [0x05, 0x03, 0x00, 0x01, 0, 0, 0, 0, 0, 0]] := by
  decide

/-- Whatever the resolver's error code, an empty endpoint list makes the
CONNECT case on a domain target reply REP = NetworkUnreachable: the second
`if` of the failure branch overwrites the converted error code. -/
theorem connect_empty_resolve_reply (env : Env) (hostname : List Nat) (port : Nat)
    (h : (env.tcp_resolve hostname port).2 = []) :
    socks5_access_connect env initial_reply socks_atyp_domain none hostname port =
      [Event.tcp_resolve hostname port,
       Event.client_write_some [0x05, 0x03, 0x00, 0x01, 0, 0, 0, 0, 0, 0]] := by
  simp only [socks5_access_connect, h]
  by_cases hec : (env.tcp_resolve hostname port).1 = 0 <;>
    simp [hec, initial_reply, socks_atyp_domain, socks_atyp_ipv6, socks_atyp_ipv4,
      socks_header_ipv4_size, socks_reply_network_unreachable, socks_reply_success,
      socks_version, List.replicate]

/-! ## Error mapping -/

/-- C7, as stated, fails: on Linux `address_family_not_supported` (97) is none
of the error codes the table names, and `convert_error_code` maps it to 0x08,
not to 0x01. -/
theorem convert_error_code_other_not_general :
    linux_errors.address_family_not_supported ∉ linux_errors.named_in_table ∧
    convert_error_code linux_errors linux_errors.address_family_not_supported = 0x08 ∧
    convert_error_code linux_errors linux_errors.address_family_not_supported ≠ 0x01 := by
  decide

/-- C7, amended. When the case labels are pairwise distinct (as C++ requires
of a `switch`), `convert_error_code` maps access denied to 0x02; network
unreachable, reset and down to 0x03; host not found and host-not-found-try-
again to 0x04; connection refused, reset and aborted to 0x05; timed out to
0x06; address family not supported to 0x08; and every other value to 0x01. -/
theorem convert_error_code_table (K : ErrorConstants) (h : K.labels.Nodup) :
    convert_error_code K K.access_denied = 0x02 ∧
    convert_error_code K K.network_unreachable = 0x03 ∧
    convert_error_code K K.network_reset = 0x03 ∧
    convert_error_code K K.network_down = 0x03 ∧
    convert_error_code K K.host_not_found = 0x04 ∧
    convert_error_code K K.host_not_found_try_again = 0x04 ∧
    convert_error_code K K.connection_refused = 0x05 ∧
    convert_error_code K K.connection_reset = 0x05 ∧
    convert_error_code K K.connection_aborted = 0x05 ∧
    convert_error_code K K.timed_out = 0x06 ∧
    convert_error_code K K.address_family_not_supported = 0x08 ∧
    ∀ ec, ec ∉ K.labels → convert_error_code K ec = 0x01 := by
  simp only [ErrorConstants.labels, List.nodup_cons, List.mem_cons, List.mem_singleton,
    not_or, List.not_mem_nil, not_false_eq_true, List.nodup_nil, and_true] at h
  obtain ⟨⟨h1, h2, h3, h4, h5, h6, h7, h8, h9, h10⟩, ⟨i1, i2, i3, i4, i5, i6, i7, i8, i9⟩,
    ⟨j1, j2, j3, j4, j5, j6, j7, j8⟩, ⟨k1, k2, k3, k4, k5, k6, k7⟩, ⟨l1, l2, l3, l4, l5, l6⟩,
    ⟨m1, m2, m3, m4, m5⟩, ⟨n1, n2, n3, n4⟩, ⟨o1, o2, o3⟩, ⟨p1, p2⟩, q1⟩ := h
  refine ⟨?_, ?_, ?_, ?_, ?_, ?_, ?_, ?_, ?_, ?_, ?_, ?_⟩
  all_goals first
    | (intro ec hec
       simp only [ErrorConstants.labels, List.mem_cons, List.mem_singleton, not_or,
         List.not_mem_nil, not_false_eq_true, and_true] at hec
       simp [convert_error_code, hec, socks_reply_general_failure])
    | simp [convert_error_code, socks_reply_connection_not_allowed,
        socks_reply_network_unreachable, socks_reply_host_unreachable,
        socks_reply_connection_refused, socks_reply_ttl_expired,
        socks_reply_address_type_not_supported, *, Ne.symm, eq_comm]

/-- The Linux values are pairwise distinct; there EACCES (13) maps to 0x02,
EAFNOSUPPORT (97) to 0x08 and ECANCELED (125), which is no case label, to
0x01. -/
theorem convert_error_code_table_witness :
    linux_errors.labels.Nodup ∧
    convert_error_code linux_errors 13 = 0x02 ∧
    convert_error_code linux_errors 97 = 0x08 ∧
    convert_error_code linux_errors 125 = 0x01 :=
  ⟨by decide, (convert_error_code_table linux_errors (by decide)).1,
   (convert_error_code_table linux_errors (by decide)).2.2.2.2.2.2.2.2.2.2.1,
   (convert_error_code_table linux_errors (by decide)).2.2.2.2.2.2.2.2.2.2.2 125 (by decide)⟩

/-! ## The TCP pumps -/

/-- When every `async_write_some` takes all the bytes it is offered, the
reader pump delivers exactly the bytes it read. -/
theorem tcp_session_reader_full_writes (write_some : Nat → List Nat → Option Nat)
    (h : ∀ i data, write_some i data = some data.length) (i : Nat) (reads : List ReadSome) :
    tcp_session_reader write_some i reads = bytes_received reads := by
  induction reads generalizing i with
  | nil => rfl
  | cons r rs ih =>
    cases r with
    | error => rfl
    | bytes data =>
      by_cases hd : data.length = 0
      · have : data = [] := List.length_eq_zero.mp hd
        simp [tcp_session_reader, bytes_received, this, ih]
      · simp [tcp_session_reader, bytes_received, hd, h, ih]

/-- C8, at the failing input. The pump reads `41 42`, then `43`, then fails;
each `async_write_some` takes one byte. The other stream receives `41 43`:
the byte `42`, offered but not taken, is never written again. The same holds
in both directions. -/
theorem tcp_session_short_write_loses_bytes :
    bytes_received [ReadSome.bytes [0x41, 0x42], ReadSome.bytes [0x43], ReadSome.error] =
      [0x41, 0x42, 0x43] ∧
    tcp_session_reader (fun _ _ => some 1) 0
        [ReadSome.bytes [0x41, 0x42], ReadSome.bytes [0x43], ReadSome.error] = [0x41, 0x43] ∧
    tcp_session_writer (fun _ _ => some 1) 0
        [ReadSome.bytes [0x41, 0x42], ReadSome.bytes [0x43], ReadSome.error] = [0x41, 0x43] := by
  decide

/-! ## Unsupported requests -/

/-- A session without credentials whose client offers no-auth enters the
request phase after the reply `05 00`. -/
theorem socks5_access_no_auth (env : Env) (methods rest : List Nat) (h : 0x00 ∈ methods) :
    socks5_access env none none (0x05 :: methods.length :: (methods ++ rest)) =
      Event.client_write [0x05, 0x00] :: socks5_access_request env rest := by
  have hm : method_supported none none methods = some 0x00 := by
    induction methods with
    | nil => simp at h
    | cons m ms ih =>
      by_cases hm : m = 0
      · simp [method_supported, socks_method_no_auth, hm]
      · have hms : 0 ∈ ms := by
          rcases List.mem_cons.mp h with h1 | h1
          · exact absurd h1.symm hm
          · exact h1
        simp [method_supported, socks_method_no_auth, hm, ih hms]
  rw [socks5_access_negotiation, hm]
  simp

theorem socks5_access_command_default (env : Env) (command address_type : Nat)
    (tcp_endpoint : Option Endpoint) (hostname : List Nat) (port : Nat)
    (h1 : command ≠ 0x01) (h2 : command ≠ 0x02) (h3 : command ≠ 0x03) :
    socks5_access_command env initial_reply command address_type tcp_endpoint hostname port =
      [Event.client_write [0x05, 0x07, 0x00, 0x01, 0, 0, 0, 0, 0, 0]] := by
  simp [socks5_access_command, socks_cmd_connect, socks_cmd_bind, socks_cmd_udp_associate,
    h1, h2, h3]
  decide

/-- C9. In the request phase, a request `05 CMD RSV ATYP ...` whose ATYP is
none of 0x01, 0x03, 0x04 gets exactly the reply `05 08 00 01 00 00 00 00 00
00`; a request with a supported ATYP, a complete address field and port, and
a CMD that is none of 0x01, 0x02, 0x03 gets exactly the reply `05 07 00 01 00
00 00 00 00 00`. In both cases that write is the whole trace: no resolve,
connect, acceptor or UDP operation, and the client socket is handed to no
relay, so it closes when the coroutine ends. -/
theorem unsupported_request_replies (env : Env) (cmd rsv atyp : Nat)
    (addr rest : List Nat) (hi lo : Nat) :
    (atyp ≠ 0x01 ∧ atyp ≠ 0x03 ∧ atyp ≠ 0x04 →
      socks5_access_request env (0x05 :: cmd :: rsv :: atyp :: rest) =
        [Event.client_write [0x05, 0x08, 0x00, 0x01, 0, 0, 0, 0, 0, 0]]) ∧
    (address_field atyp addr = true ∧ cmd ≠ 0x01 ∧ cmd ≠ 0x02 ∧ cmd ≠ 0x03 →
      socks5_access_request env (0x05 :: cmd :: rsv :: atyp :: (addr ++ hi :: lo :: rest)) =
        [Event.client_write [0x05, 0x07, 0x00, 0x01, 0, 0, 0, 0, 0, 0]]) := by
  constructor
  · rintro ⟨h1, h3, h4⟩
    simp [socks5_access_request, socks_version, socks_atyp_ipv4, socks_atyp_domain,
      socks_atyp_ipv6, h1, h3, h4]
    decide
  · rintro ⟨ha, c1, c2, c3⟩
    simp only [address_field, Bool.or_eq_true, Bool.and_eq_true, beq_iff_eq] at ha
    rcases ha with (⟨rfl, hl⟩ | ⟨rfl, hl⟩) | ⟨rfl, hl⟩
    · have hr := read_exactly_append addr (hi :: lo :: rest)
      rw [hl] at hr
      simp [socks5_access_request, socks_version, socks_atyp_ipv4, hr, socks5_access_port,
        socks5_access_command_default, c1, c2, c3]
    · cases addr with
      | nil => simp at hl
      | cons n name =>
        simp only [beq_iff_eq] at hl
        have hr := read_exactly_append name (hi :: lo :: rest)
        rw [hl] at hr
        simp [socks5_access_request, socks_version, socks_atyp_ipv4, socks_atyp_domain, hr,
          socks5_access_port, socks5_access_command_default, c1, c2, c3]
    · have hr := read_exactly_append addr (hi :: lo :: rest)
      rw [hl] at hr
      simp [socks5_access_request, socks_version, socks_atyp_ipv4, socks_atyp_domain,
        socks_atyp_ipv6, hr, socks5_access_port, socks5_access_command_default, c1, c2, c3]

/-- Both parts of C9 on concrete requests: `05 01 00 09` (ATYP 0x09), and
`05 09 00 03 01 61 00 50` (CMD 0x09 on the domain "a", port 80). -/
theorem unsupported_request_replies_witness :
    socks5_access_request sample_env [0x05, 0x01, 0x00, 0x09] =
      [Event.client_write [0x05, 0x08, 0x00, 0x01, 0, 0, 0, 0, 0, 0]] ∧
    socks5_access_request sample_env [0x05, 0x09, 0x00, 0x03, 0x01, 0x61, 0x00, 0x50] =
      [Event.client_write [0x05, 0x07, 0x00, 0x01, 0, 0, 0, 0, 0, 0]] :=
  ⟨(unsupported_request_replies sample_env 0x01 0x00 0x09 [] [] 0 0).1 (by decide),
   (unsupported_request_replies sample_env 0x09 0x00 0x03 [0x01, 0x61] [] 0x00 0x50).2
     (by decide)⟩

/-! ## The UDP header -/

theorem ntohs_htons (port : Nat) (h : port < 65536) :
    ntohs (port / 256 % 256) (port % 256) = port := by
  unfold ntohs
  omega

/-- The frame that `udp_session::writer` builds for an IPv4 sender: RSV = 0,
FRAG = 0, ATYP = 0x01, the four address bytes, the port in network order,
then the payload. -/
theorem udp_session_writer_frame_ipv4 (a0 a1 a2 a3 port : Nat) (payload : List Nat) :
    udp_session_writer_frame ⟨Address.v4 [a0, a1, a2, a3], port⟩ payload =
      [0, 0, 0, 0x01, a0, a1, a2, a3, port / 256 % 256, port % 256] ++ payload := by
  simp [udp_session_writer_frame, copy_at, htons, socks_atyp_ipv4, socks_header_ipv4_size,
    List.replicate]

/-- What `udp_session::reader` decodes from an IPv4 frame of any length: its
4096-byte receive buffer keeps the header and the first 4086 bytes of the
payload. -/
theorem udp_session_reader_step_ipv4_frame (env : UdpEnv) (client from_endpoint : Endpoint)
    (a0 a1 a2 a3 hi lo : Nat) (payload : List Nat) (hne : payload ≠ []) :
    udp_session_reader_step env client from_endpoint
        ([0, 0, 0, 0x01, a0, a1, a2, a3, hi, lo] ++ payload) =
      ([UdpEvent.forwarder_send_to (payload.take 4086)
          ⟨Address.v4 [a0, a1, a2, a3], ntohs hi lo⟩], from_endpoint) := by
  have htake : List.take 4096 ([0, 0, 0, 0x01, a0, a1, a2, a3, hi, lo] ++ payload) =
      [0, 0, 0, 0x01, a0, a1, a2, a3, hi, lo] ++ payload.take 4086 := by
    rw [List.take_append_eq_append_take]
    rfl
  have hpos : 0 < payload.length := List.length_pos.mpr hne
  have hlen : (payload.take 4086).length = min 4086 payload.length := List.length_take _ _
  have hne' : payload.take 4086 ≠ [] := by
    intro h
    rw [h] at hlen
    simp only [List.length_nil] at hlen
    omega
  simp only [udp_session_reader_step, htake]
  simp [socks_atyp_ipv4, socks_header_ipv4_size, hne', hne]

/-- C10, as stated, fails: for the IPv4 sender 127.0.0.1:7 and a payload of
4087 bytes `41`, the frame built by `udp_session::writer` has 4097 bytes, and
`udp_session::reader`, whose receive buffer holds 4096 bytes, decodes it to a
payload of 4086 bytes: the last byte is lost. -/
theorem udp_round_trip_truncates_payload :
    (udp_session_writer_frame ⟨Address.v4 [127, 0, 0, 1], 7⟩
      (List.replicate 4087 0x41)).length = 4097 ∧
    (udp_session_reader_step sample_udp_env default_udp_endpoint
        ⟨Address.v4 [10, 0, 0, 2], 5000⟩
        (udp_session_writer_frame ⟨Address.v4 [127, 0, 0, 1], 7⟩
          (List.replicate 4087 0x41))).1 =
      [UdpEvent.forwarder_send_to (List.replicate 4086 0x41)
        ⟨Address.v4 [127, 0, 0, 1], 7⟩] ∧
    List.replicate 4086 0x41 ≠ List.replicate 4087 0x41 := by
  refine ⟨?_, ?_, ?_⟩
  · rw [udp_session_writer_frame_ipv4, List.length_append, List.length_replicate]
    rfl
  · rw [udp_session_writer_frame_ipv4, udp_session_reader_step_ipv4_frame]
    · rw [List.take_replicate]
      rfl
    · intro h
      have := congrArg List.length h
      rw [List.length_replicate, List.length_nil] at this
      omega
  · intro h
    have := congrArg List.length h
    rw [List.length_replicate, List.length_replicate] at this
    omega

/-- C10, amended. For every IPv4 sender (the only kind the IPv4 forwarder
socket receives from), every port and every non-empty payload of at most 4086
bytes, the frame built by `udp_session::writer` has RSV = 0, FRAG = 0 and
ATYP = 0x01 followed by the address bytes, the port in network order and the
payload, and `udp_session::reader` decodes it to the same IPv4 address, the
same port and the same payload. -/
theorem udp_header_round_trip_ipv4 (env : UdpEnv) (client from_endpoint : Endpoint)
    (a0 a1 a2 a3 port : Nat) (payload : List Nat) (hp : port < 65536)
    (hne : payload ≠ []) (hlen : payload.length + 10 ≤ 4096) :
    udp_session_writer_frame ⟨Address.v4 [a0, a1, a2, a3], port⟩ payload =
      [0, 0, 0, 0x01, a0, a1, a2, a3, port / 256 % 256, port % 256] ++ payload ∧
    udp_session_reader_step env client from_endpoint
        (udp_session_writer_frame ⟨Address.v4 [a0, a1, a2, a3], port⟩ payload) =
      ([UdpEvent.forwarder_send_to payload ⟨Address.v4 [a0, a1, a2, a3], port⟩],
       from_endpoint) := by
  have hframe : udp_session_writer_frame ⟨Address.v4 [a0, a1, a2, a3], port⟩ payload =
      [0, 0, 0, 0x01, a0, a1, a2, a3, port / 256 % 256, port % 256] ++ payload := by
    simp [udp_session_writer_frame, copy_at, htons, socks_atyp_ipv4, socks_header_ipv4_size,
      List.replicate]
  refine ⟨hframe, ?_⟩
  rw [hframe]
  have htake : List.take 4096
      ([0, 0, 0, 0x01, a0, a1, a2, a3, port / 256 % 256, port % 256] ++ payload) =
      [0, 0, 0, 0x01, a0, a1, a2, a3, port / 256 % 256, port % 256] ++ payload := by
    apply List.take_of_length_le
    simp
    omega
  simp only [udp_session_reader_step, htake]
  simp [socks_atyp_ipv4, socks_header_ipv4_size, ntohs_htons port hp, hne]

/-- Scenario 6 of the spec: 127.0.0.1:7 with payload `48 49` is framed as
`00 00 00 01 7f 00 00 01 00 07 48 49`, and that frame is decoded to payload
`48 49` for 127.0.0.1:7. -/
theorem udp_header_round_trip_ipv4_witness :
    7 < 65536 ∧ [0x48, 0x49] ≠ ([] : List Nat) ∧ [0x48, 0x49].length + 10 ≤ 4096 ∧
    udp_session_writer_frame ⟨Address.v4 [0x7f, 0x00, 0x00, 0x01], 7⟩ [0x48, 0x49] =
      [0x00, 0x00, 0x00, 0x01, 0x7f, 0x00, 0x00, 0x01, 0x00, 0x07, 0x48, 0x49] ∧
    udp_session_reader_step sample_udp_env default_udp_endpoint
        ⟨Address.v4 [10, 0, 0, 2], 5000⟩
        (udp_session_writer_frame ⟨Address.v4 [0x7f, 0x00, 0x00, 0x01], 7⟩ [0x48, 0x49]) =
      ([UdpEvent.forwarder_send_to [0x48, 0x49] ⟨Address.v4 [0x7f, 0x00, 0x00, 0x01], 7⟩],
       ⟨Address.v4 [10, 0, 0, 2], 5000⟩) :=
  ⟨by decide, by decide, by decide,
   (udp_header_round_trip_ipv4 sample_udp_env default_udp_endpoint
      ⟨Address.v4 [10, 0, 0, 2], 5000⟩ 0x7f 0x00 0x00 0x01 7 [0x48, 0x49]
      (by decide) (by decide) (by decide)).1,
   (udp_header_round_trip_ipv4 sample_udp_env default_udp_endpoint
      ⟨Address.v4 [10, 0, 0, 2], 5000⟩ 0x7f 0x00 0x00 0x01 7 [0x48, 0x49]
      (by decide) (by decide) (by decide)).2⟩

/-- The IPv6 branch of `udp_session::writer`, which no received datagram
reaches (`forwarder_socket` is opened on `udp::endpoint()`, an IPv4 socket):
it would frame the sender [::1]:7 with ATYP 0x01 in byte 3. -/
theorem udp_writer_ipv6_frame_has_ipv4_atyp :
    udp_session_writer_frame ⟨Address.v6 [0, 0, 0, 0, 0, 0, 0, 0, 0, 0, 0, 0, 0, 0, 0, 1], 7⟩
        [0x48, 0x49] =
      [0x00, 0x00, 0x00, 0x01, 0, 0, 0, 0, 0, 0, 0, 0, 0, 0, 0, 0, 0, 0, 0, 1, 0x00, 0x07,
       0x48, 0x49] := by
  decide

/-! ## The UDP pumps: client endpoint and dropped datagrams -/

theorem getD_take_4096 (datagram : List Nat) (i : Nat) (h : i < 4096) :
    (datagram.take 4096).getD i 0 = datagram.getD i 0 := by
  simp only [List.getD_eq_getElem?_getD, List.getElem?_take, h, if_true]

/-- A datagram of at most 4 bytes leaves `client_udp_endpoint` as it is; a
longer one sets it to the sender. -/
theorem udp_session_reader_step_endpoint (env : UdpEnv) (client from_endpoint : Endpoint)
    (datagram : List Nat) :
    (udp_session_reader_step env client from_endpoint datagram).2 =
      if 4 < datagram.length then from_endpoint else client := by
  have hlen : (datagram.take 4096).length = min 4096 datagram.length := List.length_take _ _
  unfold udp_session_reader_step
  by_cases h : 4 < datagram.length
  · have h4 : ¬ (datagram.take 4096).length ≤ 4 := by omega
    simp only [h4, h, if_true, if_false]
    repeat' split
    all_goals rfl
  · have h4 : (datagram.take 4096).length ≤ 4 := by omega
    simp only [h4, h, if_true, if_false]

theorem udp_session_run_endpoint_unseen (env : UdpEnv) (s : UdpSession)
    (inputs : List UdpInput) (h : client_datagram_seen inputs = false) :
    (udp_session_run env s inputs).2.client_udp_endpoint = s.client_udp_endpoint := by
  induction inputs generalizing s with
  | nil => rfl
  | cons input inputs ih =>
    cases input with
    | listener_receive from_endpoint datagram =>
      simp only [client_datagram_seen, Bool.or_eq_false_iff, decide_eq_false_iff_not] at h
      simp only [udp_session_run]
      rw [ih _ h.2]
      simp only [udp_session_on]
      split
      · simp only [udp_session_reader_step_endpoint, h.1, if_false]
      · rfl
    | listener_error =>
      simp only [client_datagram_seen] at h
      simp only [udp_session_run]
      rw [ih _ h]
      simp only [udp_session_on]
      split <;> rfl
    | forwarder_receive remote datagram =>
      simp only [client_datagram_seen] at h
      simp only [udp_session_run]
      rw [ih _ h]
      simp only [udp_session_on]
      split <;> rfl
    | forwarder_error =>
      simp only [client_datagram_seen] at h
      simp only [udp_session_run]
      rw [ih _ h]
      simp only [udp_session_on]
      split <;> rfl

theorem listener_transmitted_append (refused : Endpoint → Bool) (xs ys : List UdpEvent) :
    listener_transmitted refused (xs ++ ys) =
      listener_transmitted refused xs ++ listener_transmitted refused ys := by
  induction xs with
  | nil => rfl
  | cons e es ih =>
    cases e with
    | listener_send_to frame endpoint =>
      by_cases h : refused endpoint = true
      · simp [listener_transmitted, h, ih]
      · simp [listener_transmitted, h, ih]
    | resolve hostname port => simp [listener_transmitted, ih]
    | forwarder_connect endpoint => simp [listener_transmitted, ih]
    | forwarder_send_to payload endpoint => simp [listener_transmitted, ih]

/-- A datagram of at most 4 bytes makes `udp_session::reader` do nothing. -/
theorem udp_session_reader_step_short (env : UdpEnv) (client from_endpoint : Endpoint)
    (datagram : List Nat) (h : ¬ 4 < datagram.length) :
    udp_session_reader_step env client from_endpoint datagram = ([], client) := by
  have hlen : (datagram.take 4096).length = min 4096 datagram.length := List.length_take _ _
  have h4 : (datagram.take 4096).length ≤ 4 := by omega
  unfold udp_session_reader_step
  simp only [h4, if_true]

/-- As long as `client_udp_endpoint` is the default endpoint, the operating
system refuses datagrams for it, and no client datagram of more than 4 bytes
arrives, a run of the session lets no datagram leave `listener_socket`. -/
theorem udp_session_run_unseen_transmits_nothing (env : UdpEnv) (refused : Endpoint → Bool)
    (hos : refused default_udp_endpoint = true) (s : UdpSession) (inputs : List UdpInput)
    (hs : s.client_udp_endpoint = default_udp_endpoint)
    (hseen : client_datagram_seen inputs = false) :
    listener_transmitted refused (udp_session_run env s inputs).1 = [] := by
  induction inputs generalizing s with
  | nil => rfl
  | cons input inputs ih =>
    simp only [udp_session_run, listener_transmitted_append]
    cases input with
    | listener_receive from_endpoint datagram =>
      simp only [client_datagram_seen, Bool.or_eq_false_iff, decide_eq_false_iff_not] at hseen
      simp only [udp_session_on]
      split
      · simp only [udp_session_reader_step_short env _ _ _ hseen.1]
        exact ih _ hs hseen.2
      · exact ih _ hs hseen.2
    | listener_error =>
      simp only [client_datagram_seen] at hseen
      simp only [udp_session_on]
      split
      · exact ih _ hs hseen
      · exact ih _ hs hseen
    | forwarder_receive remote datagram =>
      simp only [client_datagram_seen] at hseen
      simp only [udp_session_on]
      split
      · simp only [udp_session_writer_step, listener_transmitted, hs, hos, if_true,
          List.nil_append]
        exact ih _ rfl hseen
      · exact ih _ hs hseen
    | forwarder_error =>
      simp only [client_datagram_seen] at hseen
      simp only [udp_session_on]
      split
      · exact ih _ hs hseen
      · exact ih _ hs hseen

/-- Before any client datagram, `udp_session::writer` does call
`listener_socket.async_send_to` for a remote datagram: with the framed
datagram and the default-constructed destination 0.0.0.0:0. -/
theorem remote_datagram_before_client_is_sent :
    udp_session_run sample_udp_env udp_session_start
        [UdpInput.forwarder_receive ⟨Address.v4 [127, 0, 0, 1], 7⟩ [0x48, 0x49]] =
      ([UdpEvent.listener_send_to
          [0x00, 0x00, 0x00, 0x01, 0x7f, 0x00, 0x00, 0x01, 0x00, 0x07, 0x48, 0x49]
          ⟨Address.v4 [0, 0, 0, 0], 0⟩],
       udp_session_start) := by
  decide

/-- Once a client datagram has been received from 10.0.0.2:5000, the echo
`48 49` from 127.0.0.1:7 leaves `listener_socket`, framed, for 10.0.0.2:5000
(scenario 6 of the spec). -/
theorem remote_datagram_after_client_is_transmitted :
    listener_transmitted refuses_port_zero
      (udp_session_run sample_udp_env udp_session_start
        [UdpInput.listener_receive ⟨Address.v4 [10, 0, 0, 2], 5000⟩
          [0x00, 0x00, 0x00, 0x01, 0x7f, 0x00, 0x00, 0x01, 0x00, 0x07, 0x48, 0x49],
         UdpInput.forwarder_receive ⟨Address.v4 [127, 0, 0, 1], 7⟩ [0x48, 0x49]]).1 =
      [([0x00, 0x00, 0x00, 0x01, 0x7f, 0x00, 0x00, 0x01, 0x00, 0x07, 0x48, 0x49],
        ⟨Address.v4 [10, 0, 0, 2], 5000⟩)] := by
  decide

/-- C11. On an operating system that refuses a datagram for the destination
0.0.0.0:0, in every state of a `udp_session` reached from its start without
the outbound pump having received a client datagram of more than 4 bytes
(from which it records the client UDP endpoint), no datagram has left the
listener socket, and a datagram then received from a remote peer makes none
leave either: `udp_session::writer` addresses it to the default-constructed
`client_udp_endpoint`, the send fails, and the datagram is dropped. -/
theorem remote_datagram_before_client_is_dropped (env : UdpEnv) (refused : Endpoint → Bool)
    (inputs : List UdpInput) (remote : Endpoint) (datagram : List Nat)
    (hos : refused default_udp_endpoint = true)
    (hseen : client_datagram_seen inputs = false) :
    listener_transmitted refused (udp_session_run env udp_session_start inputs).1 = [] ∧
    listener_transmitted refused
      (udp_session_on env (udp_session_run env udp_session_start inputs).2
        (UdpInput.forwarder_receive remote datagram)).1 = [] := by
  constructor
  · exact udp_session_run_unseen_transmits_nothing env refused hos _ inputs rfl hseen
  · have hs : (udp_session_run env udp_session_start inputs).2.client_udp_endpoint =
        default_udp_endpoint := by
      rw [udp_session_run_endpoint_unseen env _ inputs hseen]
      rfl
    simp only [udp_session_on]
    split
    · simp only [udp_session_writer_step, listener_transmitted, hs, hos, if_true]
    · rfl

/-- After a 3-byte client datagram (not recorded) and a first remote datagram,
a second datagram `48 49` from 127.0.0.1:7 still leaves nothing on the
listener socket of a host that refuses port 0. -/
theorem remote_datagram_before_client_is_dropped_witness :
    refuses_port_zero default_udp_endpoint = true ∧
    client_datagram_seen
      [UdpInput.listener_receive ⟨Address.v4 [10, 0, 0, 2], 5000⟩ [0x00, 0x00, 0x00],
       UdpInput.forwarder_receive ⟨Address.v4 [127, 0, 0, 1], 7⟩ [0x48, 0x49]] = false ∧
    listener_transmitted refuses_port_zero
      (udp_session_on sample_udp_env
        (udp_session_run sample_udp_env udp_session_start
          [UdpInput.listener_receive ⟨Address.v4 [10, 0, 0, 2], 5000⟩ [0x00, 0x00, 0x00],
           UdpInput.forwarder_receive ⟨Address.v4 [127, 0, 0, 1], 7⟩ [0x48, 0x49]]).2
        (UdpInput.forwarder_receive ⟨Address.v4 [127, 0, 0, 1], 7⟩ [0x48, 0x49])).1 = [] :=
  ⟨by decide, by decide,
   (remote_datagram_before_client_is_dropped sample_udp_env refuses_port_zero
      [UdpInput.listener_receive ⟨Address.v4 [10, 0, 0, 2], 5000⟩ [0x00, 0x00, 0x00],
       UdpInput.forwarder_receive ⟨Address.v4 [127, 0, 0, 1], 7⟩ [0x48, 0x49]]
      ⟨Address.v4 [127, 0, 0, 1], 7⟩ [0x48, 0x49] (by decide) (by decide)).2⟩

/-- A datagram that meets one of the spec's drop conditions makes one turn of
the loop of `udp_session::reader` end in a `continue`: no event. -/
theorem udp_session_reader_step_dropped (env : UdpEnv) (client from_endpoint : Endpoint)
    (datagram : List Nat) (hd : dropped_frame datagram = true) :
    (udp_session_reader_step env client from_endpoint datagram).1 = [] := by
  have hlen : (datagram.take 4096).length = min 4096 datagram.length := List.length_take _ _
  have h2 := getD_take_4096 datagram 2 (by omega)
  have h3 := getD_take_4096 datagram 3 (by omega)
  have h4 := getD_take_4096 datagram 4 (by omega)
  simp only [dropped_frame, Bool.or_eq_true, Bool.and_eq_true, decide_eq_true_eq, beq_iff_eq,
    bne_iff_ne] at hd
  unfold udp_session_reader_step
  simp only [h2, h3, h4, socks_atyp_ipv4, socks_atyp_ipv6, socks_atyp_domain,
    socks_header_ipv4_size, socks_header_ipv6_size]
  by_cases hshort : (datagram.take 4096).length ≤ 4
  · rw [if_pos hshort]
  · rw [if_neg hshort]
    by_cases hfrag : datagram.getD 2 0 ≠ 0
    · rw [if_pos hfrag]
    · rw [if_neg hfrag]
      by_cases a1 : datagram.getD 3 0 = 1
      · have : (datagram.take 4096).length ≤ 10 := by
          rcases hd with (((hd | hd) | hd) | hd) | hd <;> omega
        rw [if_pos a1, if_pos this]
      · rw [if_neg a1]
        by_cases a4 : datagram.getD 3 0 = 4
        · have : (datagram.take 4096).length ≤ 22 := by
            rcases hd with (((hd | hd) | hd) | hd) | hd <;> omega
          rw [if_pos a4, if_pos this]
        · rw [if_neg a4]
          by_cases a3 : datagram.getD 3 0 = 3
          · have : (datagram.take 4096).length ≤ 10 ∨
                (datagram.take 4096).length ≤ 4 + 1 + datagram.getD 4 0 + 2 := by
              rcases hd with (((hd | hd) | hd) | hd) | hd <;> omega
            rw [if_pos a3]
            rcases this with h | h
            · rw [if_pos h]
            · by_cases h10 : (datagram.take 4096).length ≤ 10
              · rw [if_pos h10]
              · rw [if_neg h10, if_pos h]
          · rw [if_neg a3]

/-- C15. While the outbound pump runs and the control socket is open, a
datagram received on the listener socket whose FRAG byte is non-zero, or that
is shorter than the minimum header of its ATYP, or whose ATYP is none of
0x01, 0x03, 0x04, causes no event at all (no send on the forwarder socket, no
resolution, no send to the client), and the pump is still in its loop
afterwards, with the control socket open and the inbound pump as it was. -/
theorem dropped_datagram_no_effect (env : UdpEnv) (s : UdpSession) (sender : Endpoint)
    (datagram : List Nat) (hr : s.reader_running = true) (ho : s.request_socket_open = true)
    (hd : dropped_frame datagram = true) :
    (udp_session_on env s (UdpInput.listener_receive sender datagram)).1 = [] ∧
    (udp_session_on env s (UdpInput.listener_receive sender datagram)).2.reader_running = true ∧
    (udp_session_on env s (UdpInput.listener_receive sender datagram)).2.request_socket_open =
      true ∧
    (udp_session_on env s (UdpInput.listener_receive sender datagram)).2.writer_running =
      s.writer_running := by
  simp only [udp_session_on, hr, ho, if_true, udp_session_reader_step_dropped env _ _ _ hd,
    and_self]

/-- Scenario 7 of the spec: the datagram `00 00 01 01 7f 00 00 01 00 07 48 49`
(FRAG = 0x01) is dropped and the pump keeps running. -/
theorem dropped_datagram_no_effect_witness :
    udp_session_start.reader_running = true ∧
    udp_session_start.request_socket_open = true ∧
    dropped_frame [0x00, 0x00, 0x01, 0x01, 0x7f, 0x00, 0x00, 0x01, 0x00, 0x07, 0x48, 0x49] =
      true ∧
    (udp_session_on sample_udp_env udp_session_start
      (UdpInput.listener_receive ⟨Address.v4 [10, 0, 0, 2], 5000⟩
        [0x00, 0x00, 0x01, 0x01, 0x7f, 0x00, 0x00, 0x01, 0x00, 0x07, 0x48, 0x49])).1 = [] ∧
    (udp_session_on sample_udp_env udp_session_start
      (UdpInput.listener_receive ⟨Address.v4 [10, 0, 0, 2], 5000⟩
        [0x00, 0x00, 0x01, 0x01, 0x7f, 0x00, 0x00, 0x01, 0x00, 0x07, 0x48, 0x49])
      ).2.reader_running = true :=
  ⟨by decide, by decide, by decide,
   (dropped_datagram_no_effect sample_udp_env udp_session_start ⟨Address.v4 [10, 0, 0, 2], 5000⟩
      [0x00, 0x00, 0x01, 0x01, 0x7f, 0x00, 0x00, 0x01, 0x00, 0x07, 0x48, 0x49]
      (by decide) (by decide) (by decide)).1,
   (dropped_datagram_no_effect sample_udp_env udp_session_start ⟨Address.v4 [10, 0, 0, 2], 5000⟩
      [0x00, 0x00, 0x01, 0x01, 0x7f, 0x00, 0x00, 0x01, 0x00, 0x07, 0x48, 0x49]
      (by decide) (by decide) (by decide)).2.1⟩

/-! ## BIND and UDP ASSOCIATE replies -/

/-- With the acceptor never opened, the BIND case ends at
`acceptor.set_option`, which throws: after a CONNECT has set
`tcp_local_address` nothing is written and no `tcp_binding` is started;
before, the reply is `05 07 00 01 00 00 00 00 00 00`. -/
theorem socks5_access_bind_unopened (env : Env) (h : env.acceptor_set_option = false) :
    socks5_access_bind env initial_reply =
      match env.tcp_local_address with
      | none => [Event.client_write [0x05, 0x07, 0x00, 0x01, 0, 0, 0, 0, 0, 0]]
      | some _ => [Event.acceptor_set_option] := by
  unfold socks5_access_bind
  cases env.tcp_local_address with
  | none =>
    show [Event.client_write (List.take socks_header_ipv4_size
      (((initial_reply.set 0 socks_version).set 1 socks_reply_command_not_supported).set 3
        socks_atyp_ipv4))] = [Event.client_write [0x05, 0x07, 0x00, 0x01, 0, 0, 0, 0, 0, 0]]
    decide
  | some address => simp [h]

/-- The coroutines of a `tcp_binding` taken alone: when the deadline passes
first, `watchdog` cancels the acceptor and `handle_bind_request` calls
`async_write_some` with `reply_size` still 0, that is, with no byte. -/
theorem tcp_binding_deadline_writes_nothing (K : ErrorConstants) (reply : List Nat)
    (h0 : K.operation_aborted ≠ 0) :
    tcp_binding_start K reply BindRace.deadline =
      [Event.acceptor_cancel, Event.client_write_some []] := by
  simp [tcp_binding_start, handle_bind_request, h0]

/-- The reply of the IPv4 path of UDP ASSOCIATE: whatever the four bytes of
the control channel's local address, BND.ADDR is `00 00 00 00`; BND.PORT is
the listener port in network order. -/
theorem udp_associate_ipv4_reply (env : Env) (a : List Nat) (control_port : Nat)
    (listener : Endpoint) (tcp_endpoint : Endpoint) (hostname : List Nat) (port : Nat)
    (hc : env.client_local_endpoint = some ⟨Address.v4 a, control_port⟩)
    (hu : env.udp_listen ⟨Address.v4 [0, 0, 0, 0], 0⟩ = some (0, listener)) :
    socks5_access_udp_associate env initial_reply (some tcp_endpoint) hostname port =
      [Event.udp_listen ⟨Address.v4 [0, 0, 0, 0], 0⟩,
       Event.client_write_some
         [0x05, 0x00, 0x00, 0x01, 0, 0, 0, 0, listener.port / 256 % 256, listener.port % 256],
       Event.start_udp_session listener.port] := by
  simp [socks5_access_udp_associate, udp_associate_listen, hc, hu, Address.is_v6, copy_at,
    htons, initial_reply, socks_version, socks_atyp_ipv4, socks_header_ipv4_size,
    List.replicate]

/-- C13, at the failing input. UDP ASSOCIATE (`05 03 00 01 00 00 00 00 00 00`)
on a control connection whose local address is 192.168.1.5, with the UDP
listener on port 40000: the reply is `05 00 00 01 00 00 00 00 9c 40`, bytes
4..7 are zero, not `c0 a8 01 05`; bytes 8..9 do carry the port. A BIND
(`05 02 00 01 ...`) with `tcp_local_address` 192.168.1.5 does not get as far
as a first reply: its acceptor is never opened and `set_option` throws. -/
theorem ipv4_reply_address_is_zero :
    sample_env.client_local_endpoint = some ⟨Address.v4 [0xc0, 0xa8, 0x01, 0x05], 1080⟩ ∧
    socks5_access sample_env none none
        [0x05, 0x01, 0x00, 0x05, 0x03, 0x00, 0x01, 0, 0, 0, 0, 0, 0] =
      [Event.client_write [0x05, 0x00],
       Event.udp_listen ⟨Address.v4 [0, 0, 0, 0], 0⟩,
       Event.client_write_some [0x05, 0x00, 0x00, 0x01, 0, 0, 0, 0, 0x9c, 0x40],
       Event.start_udp_session 40000] ∧
    after_connect_env.tcp_local_address = some (Address.v4 [0xc0, 0xa8, 0x01, 0x05]) ∧
    socks5_access after_connect_env none none
        [0x05, 0x01, 0x00, 0x05, 0x02, 0x00, 0x01, 0, 0, 0, 0, 0, 0] =
      [Event.client_write [0x05, 0x00],
       Event.acceptor_set_option] := by
  decide

/-! ## The IPv4 fallback listener -/

/-- On Linux, when the IPv6 acceptor cannot be created, `listener_ipv6` runs
`listener_ipv4` without credentials on port 1080, whatever it was given. -/
theorem listener_ipv6_fallback (w : ListenEnv) (username password : Option (List Nat))
    (port : Nat) (h : w.acceptor_v6 port = false) :
    listener_ipv6 true w username password port =
      ListenerEvent.acceptor true port :: listener_ipv4 w none none 1080 := by
  simp [listener_ipv6, h, default_port]

/-- C16, at the failing input. The server is started on Linux with port 8080
and credentials ("u", "p"); no IPv6 acceptor can be created. The fallback
listener is created on port 1080, not 8080, and spawns its sessions with null
credentials: a client that sends `05 01 00` is granted NO_AUTH (`05 00`). -/
theorem fallback_listener_drops_port_and_credentials :
    listener_ipv6 true fallback_world (some [0x75]) (some [0x70]) 8080 =
      [ListenerEvent.acceptor true 8080,
       ListenerEvent.acceptor false 1080,
       ListenerEvent.session none none [Event.client_write [0x05, 0x00]]] := by
  decide

/-! ## Success replies per session -/

theorem connect_loop_countP (env : Env) (q : Event → Bool)
    (hq : ∀ endpoint, q (Event.remote_connect endpoint) = false) (i : Nat) (ec : Int)
    (endpoints : List Endpoint) :
    (connect_loop env i ec endpoints).1.countP q = 0 := by
  induction endpoints generalizing i ec with
  | nil => simp [connect_loop]
  | cons e es ih =>
    unfold connect_loop
    split
    · simp [List.countP_cons, hq]
    · simp [List.countP_cons, hq, ih]

theorem connect_finish_counts (env : Env) (reply : List Nat) (reply_size : Nat) (ec : Int)
    (tcp_endpoint connected : Option Endpoint) :
    (connect_finish env reply reply_size ec tcp_endpoint connected).countP client_written ≤ 1 ∧
    (connect_finish env reply reply_size ec tcp_endpoint connected).countP starts_binding
      = 0 := by
  unfold connect_finish
  cases tcp_endpoint with
  | none => simp [List.countP_cons, client_written, starts_binding]
  | some endpoint =>
    by_cases hec : ec ≠ 0
    · simp [hec, List.countP_cons, client_written, starts_binding]
    · cases hl : env.remote_local_endpoint connected <;>
        simp [hec, hl, List.countP_cons, client_written, starts_binding]

theorem socks5_access_connect_counts (env : Env) (reply : List Nat) (address_type : Nat)
    (tcp_endpoint : Option Endpoint) (hostname : List Nat) (port : Nat) :
    (socks5_access_connect env reply address_type tcp_endpoint hostname port).countP
      client_written ≤ 1 ∧
    (socks5_access_connect env reply address_type tcp_endpoint hostname port).countP
      starts_binding = 0 := by
  unfold socks5_access_connect
  cases tcp_endpoint with
  | some endpoint => exact connect_finish_counts _ _ _ _ _ _
  | none =>
    simp only
    by_cases h : (env.tcp_resolve hostname port).2.isEmpty = true ∨
        (env.tcp_resolve hostname port).1 ≠ 0
    · rw [if_pos h]
      simp [List.countP_cons, client_written, starts_binding]
    · rw [if_neg h]
      simp only [List.countP_cons, List.countP_append, client_written, starts_binding,
        connect_loop_countP env client_written (fun _ => rfl),
        connect_loop_countP env starts_binding (fun _ => rfl)]
      have := connect_finish_counts env
        (if address_type = socks_atyp_ipv6
          then (reply.set 1 socks_reply_success).set 3 socks_atyp_ipv6
          else (reply.set 1 socks_reply_success).set 3 socks_atyp_ipv4)
        (if address_type = socks_atyp_ipv6 then socks_header_ipv6_size
          else socks_header_ipv4_size)
        (connect_loop env 0 (env.tcp_resolve hostname port).1
          (env.tcp_resolve hostname port).2).2.1
        (connect_loop env 0 (env.tcp_resolve hostname port).1
          (env.tcp_resolve hostname port).2).2.2
        (connect_loop env 0 (env.tcp_resolve hostname port).1
          (env.tcp_resolve hostname port).2).2.2
      simpa using this

theorem socks5_access_bind_counts (env : Env) (reply : List Nat) :
    (socks5_access_bind env reply).countP client_written ≤ 1 ∧
    (socks5_access_bind env reply).countP starts_binding ≤ 1 := by
  unfold socks5_access_bind
  cases env.tcp_local_address with
  | none => simp [List.countP_cons, client_written, starts_binding]
  | some address =>
    cases env.acceptor_set_option <;> cases env.acceptor_local_endpoint <;>
      cases address <;>
      simp [List.countP_cons, client_written, starts_binding, Address.is_v6]

theorem udp_associate_listen_counts (env : Env) (reply : List Nat) (reply_size : Nat)
    (local_address : Address) (initialise_endpoint : Endpoint) :
    (udp_associate_listen env reply reply_size local_address initialise_endpoint).countP
      client_written ≤ 1 ∧
    (udp_associate_listen env reply reply_size local_address initialise_endpoint).countP
      starts_binding = 0 := by
  unfold udp_associate_listen
  cases env.udp_listen initialise_endpoint with
  | none => simp [List.countP_cons, client_written, starts_binding]
  | some r =>
    obtain ⟨ec, binding_endpoint⟩ := r
    by_cases hec : ec ≠ 0 <;>
      simp [hec, List.countP_cons, client_written, starts_binding]

theorem socks5_access_udp_associate_counts (env : Env) (reply : List Nat)
    (tcp_endpoint : Option Endpoint) (hostname : List Nat) (port : Nat) :
    (socks5_access_udp_associate env reply tcp_endpoint hostname port).countP
      client_written ≤ 1 ∧
    (socks5_access_udp_associate env reply tcp_endpoint hostname port).countP
      starts_binding = 0 := by
  unfold socks5_access_udp_associate
  cases env.client_local_endpoint with
  | none => simp
  | some client_endpoint =>
    cases tcp_endpoint with
    | some endpoint => exact udp_associate_listen_counts _ _ _ _ _
    | none =>
      simp only
      by_cases h : (env.udp_resolve hostname port).1 ≠ 0 ∨
          (env.udp_resolve hostname port).2.isEmpty = true
      · rw [if_pos h]
        simp [List.countP_cons, client_written, starts_binding]
      · rw [if_neg h]
        simp only [List.countP_cons, client_written, starts_binding]
        have := udp_associate_listen_counts env
          (if client_endpoint.address.is_v6 = true then reply.set 3 socks_atyp_ipv6
            else reply.set 3 socks_atyp_ipv4)
          (if client_endpoint.address.is_v6 = true then socks_header_ipv6_size
            else socks_header_ipv4_size)
          client_endpoint.address
          (if client_endpoint.address.is_v6 = true then ⟨Address.v6 (List.replicate 16 0), 0⟩
            else ⟨Address.v4 (List.replicate 4 0), 0⟩)
        simpa using this

theorem socks5_access_command_counts (env : Env) (reply : List Nat) (command address_type : Nat)
    (tcp_endpoint : Option Endpoint) (hostname : List Nat) (port : Nat) :
    (socks5_access_command env reply command address_type tcp_endpoint hostname port).countP
      client_written ≤ 1 ∧
    (socks5_access_command env reply command address_type tcp_endpoint hostname port).countP
      starts_binding ≤ 1 := by
  unfold socks5_access_command
  split
  · have := socks5_access_connect_counts env reply address_type tcp_endpoint hostname port
    omega
  · split
    · exact socks5_access_bind_counts env reply
    · split
      · have := socks5_access_udp_associate_counts env reply tcp_endpoint hostname port
        omega
      · simp [List.countP_cons, client_written, starts_binding]

theorem socks5_access_port_counts (env : Env) (reply : List Nat) (command address_type : Nat)
    (tcp_endpoint : Option Endpoint) (hostname input : List Nat) :
    (socks5_access_port env reply command address_type tcp_endpoint hostname input).countP
      client_written ≤ 1 ∧
    (socks5_access_port env reply command address_type tcp_endpoint hostname input).countP
      starts_binding ≤ 1 := by
  unfold socks5_access_port
  split
  · exact socks5_access_command_counts _ _ _ _ _ _ _
  · simp

theorem socks5_access_request_counts (env : Env) (input : List Nat) :
    (socks5_access_request env input).countP client_written ≤ 1 ∧
    (socks5_access_request env input).countP starts_binding ≤ 1 := by
  unfold socks5_access_request
  split
  · split
    · simp
    · simp only
      split
      · split
        · simp
        · exact socks5_access_port_counts _ _ _ _ _ _ _
      · split
        · split
          · simp
          · split
            · simp
            · exact socks5_access_port_counts _ _ _ _ _ _ _
        · split
          · split
            · simp
            · exact socks5_access_port_counts _ _ _ _ _ _ _
          · simp [List.countP_cons, client_written, starts_binding]
  · simp

theorem client_reply_le_written (trace : List Event) :
    trace.countP client_reply ≤ trace.countP client_written := by
  apply List.countP_mono_left
  intro e _ he
  cases e <;> simp_all [client_reply, client_written]

theorem socks5_access_request_replies (env : Env) (input : List Nat) :
    (socks5_access_request env input).countP client_reply ≤ 1 ∧
    (socks5_access_request env input).countP starts_binding ≤ 1 :=
  ⟨Nat.le_trans (client_reply_le_written _) (socks5_access_request_counts env input).1,
   (socks5_access_request_counts env input).2⟩

theorem socks5_access_auth_replies (env : Env) (username password : Option (List Nat))
    (input : List Nat) :
    (socks5_access_auth env username password input).countP client_reply ≤ 1 ∧
    (socks5_access_auth env username password input).countP starts_binding ≤ 1 := by
  unfold socks5_access_auth
  split
  · split
    · simp
    · split
      · simp
      · split
        · simp
        · split
          · simp
          · split
            · simpa [List.countP_cons, client_reply, starts_binding] using
                socks5_access_request_replies env _
            · simp [List.countP_cons, client_reply, starts_binding]
  · simp

/-- A session writes at most one request reply to the client and starts at
most one `tcp_binding`. -/
theorem socks5_access_replies (env : Env) (username password : Option (List Nat))
    (input : List Nat) :
    (socks5_access env username password input).countP client_reply ≤ 1 ∧
    (socks5_access env username password input).countP starts_binding ≤ 1 := by
  unfold socks5_access
  split
  · split
    · simp
    · split
      · simp
      · simp only [List.countP_cons, client_reply, starts_binding]
        split
        · simp
        · split
          · simpa using socks5_access_auth_replies env username password _
          · simpa using socks5_access_request_replies env _
  · simp

theorem handle_bind_request_written (K : ErrorConstants) (reply : List Nat) (ec : Int)
    (remote_endpoint : Option Endpoint) :
    (handle_bind_request K reply ec remote_endpoint).countP client_written ≤ 1 := by
  unfold handle_bind_request
  by_cases hec : ec ≠ 0
  · simp [hec, List.countP_cons, client_written]
  · cases remote_endpoint with
    | none => simp [hec, List.countP_cons, client_written]
    | some endpoint =>
      cases h : endpoint.address.is_v6 <;> simp [hec, h, List.countP_cons, client_written]

theorem success_reply_le_written (trace : List Event) :
    trace.countP success_reply ≤ trace.countP client_written := by
  apply List.countP_mono_left
  intro e _ he
  cases e <;> simp_all [success_reply, client_written]

/-- A `tcp_binding` writes at most one success reply. -/
theorem tcp_binding_start_success (K : ErrorConstants) (reply : List Nat) (race : BindRace) :
    (tcp_binding_start K reply race).countP success_reply ≤ 1 := by
  refine Nat.le_trans (success_reply_le_written _) ?_
  cases race with
  | deadline =>
    have h := handle_bind_request_written K reply K.operation_aborted none
    simp only [tcp_binding_start, List.countP_cons, client_written]
    simpa using h
  | accept ec remote_endpoint =>
    have h := handle_bind_request_written K reply ec remote_endpoint
    simp only [tcp_binding_start]
    split
    · simp only [List.countP_append, List.countP_cons, List.countP_nil, client_written]
      simpa using h
    · exact h

/-- The success replies of a trace and of the `tcp_binding` tasks it spawns
are at most its request replies plus its `tcp_binding` starts. -/
theorem execution_success_le (K : ErrorConstants) (race : BindRace) (trace : List Event) :
    (trace ++ trace.flatMap (spawned_replies K race)).countP success_reply ≤
      trace.countP client_reply + trace.countP starts_binding := by
  induction trace with
  | nil => simp
  | cons e t ih =>
    have he : (if success_reply e = true then 1 else 0) ≤
        (if client_reply e = true then 1 else 0) := by
      cases e <;> simp only [success_reply, client_reply, Bool.and_eq_true, decide_eq_true_eq,
        if_false, le_refl, Bool.false_eq_true]
      all_goals split <;> split <;> simp_all
    have hs : (spawned_replies K race e).countP success_reply ≤
        (if starts_binding e = true then 1 else 0) := by
      cases e <;> simp [spawned_replies, starts_binding]
      exact tcp_binding_start_success K _ race
    simp only [List.cons_append, List.flatMap_cons, List.countP_cons, List.countP_append]
      at ih ⊢
    omega

theorem socks5_access_command_no_binding (env : Env) (reply : List Nat)
    (command address_type : Nat) (tcp_endpoint : Option Endpoint) (hostname : List Nat)
    (port : Nat) (h : env.acceptor_set_option = false) :
    (socks5_access_command env reply command address_type tcp_endpoint hostname port).countP
      starts_binding = 0 := by
  unfold socks5_access_command
  split
  · exact (socks5_access_connect_counts env reply address_type tcp_endpoint hostname port).2
  · split
    · unfold socks5_access_bind
      cases env.tcp_local_address with
      | none => simp [List.countP_cons, starts_binding]
      | some address => simp [h, List.countP_cons, starts_binding]
    · split
      · exact (socks5_access_udp_associate_counts env reply tcp_endpoint hostname port).2
      · simp [List.countP_cons, starts_binding]

theorem socks5_access_request_no_binding (env : Env) (input : List Nat)
    (h : env.acceptor_set_option = false) :
    (socks5_access_request env input).countP starts_binding = 0 := by
  have hp : ∀ reply command address_type tcp_endpoint hostname rest,
      (socks5_access_port env reply command address_type tcp_endpoint hostname rest).countP
        starts_binding = 0 := by
    intro reply command address_type tcp_endpoint hostname rest
    unfold socks5_access_port
    split
    · exact socks5_access_command_no_binding _ _ _ _ _ _ _ h
    · simp
  unfold socks5_access_request
  split
  · split
    · simp
    · simp only
      split
      · split
        · simp
        · exact hp _ _ _ _ _ _
      · split
        · split
          · simp
          · split
            · simp
            · exact hp _ _ _ _ _ _
        · split
          · split
            · simp
            · exact hp _ _ _ _ _ _
          · simp [List.countP_cons, starts_binding]
  · simp

/-- With the acceptor never opened, no session starts a `tcp_binding`. -/
theorem socks5_access_no_binding (env : Env) (username password : Option (List Nat))
    (input : List Nat) (h : env.acceptor_set_option = false) :
    (socks5_access env username password input).countP starts_binding = 0 := by
  have hr := fun rest => socks5_access_request_no_binding env rest h
  have ha : ∀ rest, (socks5_access_auth env username password rest).countP starts_binding
      = 0 := by
    intro rest
    unfold socks5_access_auth
    split
    · split
      · simp
      · split
        · simp
        · split
          · simp
          · split
            · simp
            · split
              · simpa [List.countP_cons, starts_binding] using hr _
              · simp [List.countP_cons, starts_binding]
    · simp
  unfold socks5_access
  split
  · split
    · simp
    · split
      · simp
      · simp only [List.countP_cons, starts_binding]
        split
        · simp
        · split
          · simpa using ha _
          · simpa using hr _
  · simp

/-- C14. The BIND acceptor is constructed without being opened, so its
`set_option` throws (`acceptor_set_option = false`). Then, for every session,
whatever command it carries, and for every execution of `socks5_access` and
of the tasks it spawns, the server writes at most one reply whose REP byte is
0x00 to the client. -/
theorem at_most_one_success_reply (env : Env) (username password : Option (List Nat))
    (input : List Nat) (race : BindRace) (h : env.acceptor_set_option = false) :
    (socks5_access_execution env username password input race).countP success_reply ≤ 1 := by
  have hG := execution_success_le env.errors race (socks5_access env username password input)
  have hR := (socks5_access_replies env username password input).1
  have hB := socks5_access_no_binding env username password input h
  unfold socks5_access_execution
  omega

/-- A CONNECT to "a.io", port 80, that resolves and connects writes exactly
one success reply; so does a UDP ASSOCIATE; a BIND after a CONNECT writes
none. -/
theorem at_most_one_success_reply_witness :
    resolving_env.acceptor_set_option = false ∧
    (socks5_access_execution resolving_env none none
        [0x05, 0x01, 0x00, 0x05, 0x01, 0x00, 0x03, 0x04, 0x61, 0x2e, 0x69, 0x6f, 0x00, 0x50]
        BindRace.deadline).countP success_reply ≤ 1 ∧
    (socks5_access_execution resolving_env none none
        [0x05, 0x01, 0x00, 0x05, 0x01, 0x00, 0x03, 0x04, 0x61, 0x2e, 0x69, 0x6f, 0x00, 0x50]
        BindRace.deadline).countP success_reply = 1 ∧
    (socks5_access_execution sample_env none none
        [0x05, 0x01, 0x00, 0x05, 0x03, 0x00, 0x01, 0, 0, 0, 0, 0, 0]
        BindRace.deadline).countP success_reply = 1 ∧
    (socks5_access_execution after_connect_env none none
        [0x05, 0x01, 0x00, 0x05, 0x02, 0x00, 0x01, 0, 0, 0, 0, 0, 0]
        BindRace.deadline).countP success_reply = 0 :=
  ⟨by decide,
   at_most_one_success_reply resolving_env none none
     [0x05, 0x01, 0x00, 0x05, 0x01, 0x00, 0x03, 0x04, 0x61, 0x2e, 0x69, 0x6f, 0x00, 0x50]
     BindRace.deadline (by decide),
   by decide, by decide, by decide⟩

end Socks5
